import Mathlib

/-!
Shallow embedding of the OCI runtime-spec data model from `src/lib.rs`.

Every record type of that file is a serde-derived Rust struct.  We embed:

* the in-memory record types, field for field, with Rust's `Option<T>`
  as `Option`, `Vec<T>` as `List`, `HashMap<String, T>` as an association
  list `List (String × T)` (decoded in wire order), `String` as `String`,
  the unsigned integer types as `Nat` and the signed ones as `Int`
  (decoders enforce the machine ranges);
* the derived `Default` instances as Lean structure-field defaults, so
  `{}` is the all-defaults record;
* the serde `Serialize` derive as an `encodeX : X → Json` function: keys
  are emitted in declaration order under their `rename`d wire names, and
  a field carrying `skip_serializing_if` is omitted when the predicate
  (`Option.is_none`, `Vec::is_empty`, `HashMap::is_empty`) holds;
* the serde `Deserialize` derive as a `decodeX : Json → Except String X`
  function structured exactly as serde's generated visitor: a loop over
  the input object's entries that fills one `Option`-wrapped slot per
  known field (erroring on a duplicate known field, ignoring unknown
  keys), followed by a finalisation step that errors on a missing field
  unless the field is an `Option` (absent means `none`) or carries
  `#[serde(default)]` (absent means the default);
* the `derive_builder` `Builder` derive (with `#[builder(default)]`) for
  the record types the claims exercise: an accumulator of `Option`-wrapped
  slots, one total setter per field, and a `build` that returns
  `Except.ok` with unset slots falling back to the field defaults.
-/

/-- The JSON value model used by the wire format (integral numbers, which
is all this schema's scalar types produce). Object entries keep their
textual order. -/
inductive Json where
  | null : Json
  | bool : Bool → Json
  | num : Int → Json
  | str : String → Json
  | arr : List Json → Json
  | obj : List (String × Json) → Json

/-- The entry list of a JSON object. -/
abbrev JFields := List (String × Json)

/-- Keys of a JSON value, empty for non-objects. -/
def Json.keys : Json → List String
  | .obj fs => fs.map Prod.fst
  | _ => []

/-- Expect a JSON object, as serde's derived struct visitor does. -/
def Json.getObj : Json → Except String JFields
  | .obj fs => .ok fs
  | _ => .error "invalid type: expected object"

/-- Decode a JSON string. -/
def decStr : Json → Except String String
  | .str s => .ok s
  | _ => .error "invalid type: expected string"

/-- Decode a JSON boolean. -/
def decBool : Json → Except String Bool
  | .bool b => .ok b
  | _ => .error "invalid type: expected boolean"

/-- Decode an unsigned integer of `bits` bits (serde rejects negatives and
out-of-range numbers for Rust's unsigned types). -/
def decUInt (bits : Nat) : Json → Except String Nat
  | .num n =>
      if 0 ≤ n ∧ n < (2 : Int) ^ bits then .ok n.toNat
      else .error "number out of range"
  | _ => .error "invalid type: expected unsigned integer"

/-- Decode a signed integer of `bits` bits. -/
def decSInt (bits : Nat) : Json → Except String Int
  | .num n =>
      if -((2 : Int) ^ (bits - 1)) ≤ n ∧ n < (2 : Int) ^ (bits - 1) then .ok n
      else .error "number out of range"
  | _ => .error "invalid type: expected signed integer"

/-- Decode Rust's `Option<T>` when the field is present: JSON `null` is
`none`, anything else must decode as a `T`. -/
def decOpt (f : Json → Except String α) : Json → Except String (Option α)
  | .null => .ok none
  | j => (f j).map some

/-- Decode a JSON array elementwise (`Vec<T>`). -/
def decArrOf (f : Json → Except String α) : Json → Except String (List α)
  | .arr xs => xs.mapM f
  | _ => .error "invalid type: expected array"

/-- Decode a JSON object valuewise (`HashMap<String, T>`, kept in wire
order). -/
def decMapOf (f : Json → Except String α) : Json → Except String (List (String × α))
  | .obj fs => fs.mapM (fun p => (f p.2).map (fun v => (p.1, v)))
  | _ => .error "invalid type: expected object"

/-- Encode a `Nat` (Rust unsigned) as a JSON number. -/
def jU (n : Nat) : Json := .num (Int.ofNat n)

/-- Encode a list of strings as a JSON array. -/
def jStrArr (xs : List String) : Json := .arr (xs.map Json.str)

/-- Emit an optional field: nothing when `none`
(`skip_serializing_if = "Option::is_none"`). -/
def optField (k : String) (f : α → Json) : Option α → JFields
  | none => []
  | some v => [(k, f v)]

/-- Emit a sequence field: nothing when empty
(`skip_serializing_if = "Vec::is_empty"`). -/
def vecField (k : String) (f : α → Json) (xs : List α) : JFields :=
  if xs.isEmpty then [] else [(k, Json.arr (xs.map f))]

/-- Emit a mapping field: nothing when empty
(`skip_serializing_if = "HashMap::is_empty"`). -/
def mapField (k : String) (f : α → Json) (xs : List (String × α)) : JFields :=
  if xs.isEmpty then [] else [(k, Json.obj (xs.map (fun p => (p.1, f p.2))))]

/-- A missing required field, as serde reports it. -/
def missing (k : String) : Except String α := .error ("missing field " ++ k)

/-- A duplicated known field, as serde reports it. -/
def dup (k : String) : Except String α := .error ("duplicate field " ++ k)

/-- Required field at finalisation: error when the slot was never filled. -/
def req (k : String) : Option α → Except String α
  | some v => .ok v
  | none => missing k

/-! ## ConsoleSizeBox (`src/lib.rs` lines 117-125) -/

/-- ConsoleSizeBox specifies dimensions of a rectangle: `height`, `width`,
both `u32`, both required on the wire. -/
structure ConsoleSizeBox where
  height : Nat := 0
  width : Nat := 0

/-- Partially decoded `ConsoleSizeBox`: one slot per known field. -/
structure ConsoleSizeBoxPartial where
  height : Option Nat := none
  width : Option Nat := none

/-- One step of serde's visitor loop for `ConsoleSizeBox`. -/
def ConsoleSizeBox.step (st : ConsoleSizeBoxPartial) (kv : String × Json) :
    Except String ConsoleSizeBoxPartial :=
  if kv.1 = "height" then
    match st.height with
    | some _ => dup "height"
    | none =>
      match decUInt 32 kv.2 with
      | .error e => .error e
      | .ok x => .ok { st with height := some x }
  else if kv.1 = "width" then
    match st.width with
    | some _ => dup "width"
    | none =>
      match decUInt 32 kv.2 with
      | .error e => .error e
      | .ok x => .ok { st with width := some x }
  else .ok st

/-- serde's visitor loop for `ConsoleSizeBox`. -/
def ConsoleSizeBox.loop (st : ConsoleSizeBoxPartial) :
    JFields → Except String ConsoleSizeBoxPartial
  | [] => .ok st
  | kv :: rest =>
    match ConsoleSizeBox.step st kv with
    | .error e => .error e
    | .ok st' => ConsoleSizeBox.loop st' rest

/-- Deserialize a `ConsoleSizeBox`. -/
def decodeConsoleSizeBox (j : Json) : Except String ConsoleSizeBox :=
  match j.getObj with
  | .error e => .error e
  | .ok fs =>
    match ConsoleSizeBox.loop {} fs with
    | .error e => .error e
    | .ok st =>
      match req "height" st.height with
      | .error e => .error e
      | .ok height =>
        match req "width" st.width with
        | .error e => .error e
        | .ok width => .ok { height, width }

/-- Serialize a `ConsoleSizeBox`. -/
def encodeConsoleSizeBox (c : ConsoleSizeBox) : Json :=
  .obj [("height", jU c.height), ("width", jU c.width)]

/-! ## User (`src/lib.rs` lines 127-141) -/

/-- User: `uid`/`gid` (`u32`, required), `umask` (`Option<u32>`),
`additional_gids` (`Vec<u32>`, wire name `additionalGids`,
`skip_serializing_if = "Vec::is_empty"` and `#[serde(default)]`). -/
structure User where
  uid : Nat := 0
  gid : Nat := 0
  umask : Option Nat := none
  additional_gids : List Nat := []

/-- Partially decoded `User`. -/
structure UserPartial where
  uid : Option Nat := none
  gid : Option Nat := none
  umask : Option (Option Nat) := none
  additional_gids : Option (List Nat) := none

/-- One step of serde's visitor loop for `User`. -/
def User.step (st : UserPartial) (kv : String × Json) :
    Except String UserPartial :=
  if kv.1 = "uid" then
    match st.uid with
    | some _ => dup "uid"
    | none =>
      match decUInt 32 kv.2 with
      | .error e => .error e
      | .ok x => .ok { st with uid := some x }
  else if kv.1 = "gid" then
    match st.gid with
    | some _ => dup "gid"
    | none =>
      match decUInt 32 kv.2 with
      | .error e => .error e
      | .ok x => .ok { st with gid := some x }
  else if kv.1 = "umask" then
    match st.umask with
    | some _ => dup "umask"
    | none =>
      match decOpt (decUInt 32) kv.2 with
      | .error e => .error e
      | .ok x => .ok { st with umask := some x }
  else if kv.1 = "additionalGids" then
    match st.additional_gids with
    | some _ => dup "additionalGids"
    | none =>
      match decArrOf (decUInt 32) kv.2 with
      | .error e => .error e
      | .ok x => .ok { st with additional_gids := some x }
  else .ok st

/-- serde's visitor loop for `User`. -/
def User.loop (st : UserPartial) : JFields → Except String UserPartial
  | [] => .ok st
  | kv :: rest =>
    match User.step st kv with
    | .error e => .error e
    | .ok st' => User.loop st' rest

/-- Deserialize a `User`: `uid`/`gid` are required, `umask` absent means
`none`, `additionalGids` absent means `[]` (it has `#[serde(default)]`). -/
def decodeUser (j : Json) : Except String User :=
  match j.getObj with
  | .error e => .error e
  | .ok fs =>
    match User.loop {} fs with
    | .error e => .error e
    | .ok st =>
      match req "uid" st.uid with
      | .error e => .error e
      | .ok uid =>
        match req "gid" st.gid with
        | .error e => .error e
        | .ok gid =>
          .ok { uid, gid
                umask := st.umask.getD none
                additional_gids := st.additional_gids.getD [] }

/-- Serialize a `User`. -/
def encodeUser (u : User) : Json :=
  .obj ([("uid", jU u.uid), ("gid", jU u.gid)]
    ++ optField "umask" jU u.umask
    ++ vecField "additionalGids" jU u.additional_gids)

/-! ## LinuxCapabilities (`src/lib.rs` lines 95-115) -/

/-- LinuxCapabilities: five `Vec<String>` sets, all with
`skip_serializing_if = "Vec::is_empty"`; only `inheritable` and `ambient`
also carry `#[serde(default)]`. -/
structure LinuxCapabilities where
  bounding : List String := []
  effective : List String := []
  inheritable : List String := []
  permitted : List String := []
  ambient : List String := []

/-- Partially decoded `LinuxCapabilities`. -/
structure LinuxCapabilitiesPartial where
  bounding : Option (List String) := none
  effective : Option (List String) := none
  inheritable : Option (List String) := none
  permitted : Option (List String) := none
  ambient : Option (List String) := none

/-- One step of serde's visitor loop for `LinuxCapabilities`. -/
def LinuxCapabilities.step (st : LinuxCapabilitiesPartial) (kv : String × Json) :
    Except String LinuxCapabilitiesPartial :=
  if kv.1 = "bounding" then
    match st.bounding with
    | some _ => dup "bounding"
    | none =>
      match decArrOf decStr kv.2 with
      | .error e => .error e
      | .ok x => .ok { st with bounding := some x }
  else if kv.1 = "effective" then
    match st.effective with
    | some _ => dup "effective"
    | none =>
      match decArrOf decStr kv.2 with
      | .error e => .error e
      | .ok x => .ok { st with effective := some x }
  else if kv.1 = "inheritable" then
    match st.inheritable with
    | some _ => dup "inheritable"
    | none =>
      match decArrOf decStr kv.2 with
      | .error e => .error e
      | .ok x => .ok { st with inheritable := some x }
  else if kv.1 = "permitted" then
    match st.permitted with
    | some _ => dup "permitted"
    | none =>
      match decArrOf decStr kv.2 with
      | .error e => .error e
      | .ok x => .ok { st with permitted := some x }
  else if kv.1 = "ambient" then
    match st.ambient with
    | some _ => dup "ambient"
    | none =>
      match decArrOf decStr kv.2 with
      | .error e => .error e
      | .ok x => .ok { st with ambient := some x }
  else .ok st

/-- serde's visitor loop for `LinuxCapabilities`. -/
def LinuxCapabilities.loop (st : LinuxCapabilitiesPartial) :
    JFields → Except String LinuxCapabilitiesPartial
  | [] => .ok st
  | kv :: rest =>
    match LinuxCapabilities.step st kv with
    | .error e => .error e
    | .ok st' => LinuxCapabilities.loop st' rest

/-- Deserialize a `LinuxCapabilities`: `bounding`, `effective` and
`permitted` lack `#[serde(default)]` and are therefore required on the
wire; `inheritable` and `ambient` default to `[]` when absent. -/
def decodeLinuxCapabilities (j : Json) : Except String LinuxCapabilities :=
  match j.getObj with
  | .error e => .error e
  | .ok fs =>
    match LinuxCapabilities.loop {} fs with
    | .error e => .error e
    | .ok st =>
      match req "bounding" st.bounding with
      | .error e => .error e
      | .ok bounding =>
        match req "effective" st.effective with
        | .error e => .error e
        | .ok effective =>
          match req "permitted" st.permitted with
          | .error e => .error e
          | .ok permitted =>
            .ok { bounding, effective, permitted
                  inheritable := st.inheritable.getD []
                  ambient := st.ambient.getD [] }

/-- Serialize a `LinuxCapabilities`. -/
def encodeLinuxCapabilities (c : LinuxCapabilities) : Json :=
  .obj (vecField "bounding" Json.str c.bounding
    ++ vecField "effective" Json.str c.effective
    ++ vecField "inheritable" Json.str c.inheritable
    ++ vecField "permitted" Json.str c.permitted
    ++ vecField "ambient" Json.str c.ambient)

/-! ## POSIXRlimit (`src/lib.rs` lines 294-305) -/

/-- POSIXRlimit: `rlimit_type` (wire name `type`), `hard`, `soft`
(`u64`), all required and always emitted. -/
structure POSIXRlimit where
  rlimit_type : String := ""
  hard : Nat := 0
  soft : Nat := 0

/-- Partially decoded `POSIXRlimit`. -/
structure POSIXRlimitPartial where
  rlimit_type : Option String := none
  hard : Option Nat := none
  soft : Option Nat := none

/-- One step of serde's visitor loop for `POSIXRlimit`. -/
def POSIXRlimit.step (st : POSIXRlimitPartial) (kv : String × Json) :
    Except String POSIXRlimitPartial :=
  if kv.1 = "type" then
    match st.rlimit_type with
    | some _ => dup "type"
    | none =>
      match decStr kv.2 with
      | .error e => .error e
      | .ok x => .ok { st with rlimit_type := some x }
  else if kv.1 = "hard" then
    match st.hard with
    | some _ => dup "hard"
    | none =>
      match decUInt 64 kv.2 with
      | .error e => .error e
      | .ok x => .ok { st with hard := some x }
  else if kv.1 = "soft" then
    match st.soft with
    | some _ => dup "soft"
    | none =>
      match decUInt 64 kv.2 with
      | .error e => .error e
      | .ok x => .ok { st with soft := some x }
  else .ok st

/-- serde's visitor loop for `POSIXRlimit`. -/
def POSIXRlimit.loop (st : POSIXRlimitPartial) :
    JFields → Except String POSIXRlimitPartial
  | [] => .ok st
  | kv :: rest =>
    match POSIXRlimit.step st kv with
    | .error e => .error e
    | .ok st' => POSIXRlimit.loop st' rest

/-- Deserialize a `POSIXRlimit`. -/
def decodePOSIXRlimit (j : Json) : Except String POSIXRlimit :=
  match j.getObj with
  | .error e => .error e
  | .ok fs =>
    match POSIXRlimit.loop {} fs with
    | .error e => .error e
    | .ok st =>
      match req "type" st.rlimit_type with
      | .error e => .error e
      | .ok rlimit_type =>
        match req "hard" st.hard with
        | .error e => .error e
        | .ok hard =>
          match req "soft" st.soft with
          | .error e => .error e
          | .ok soft => .ok { rlimit_type, hard, soft }

/-- Serialize a `POSIXRlimit`. -/
def encodePOSIXRlimit (r : POSIXRlimit) : Json :=
  .obj [("type", Json.str r.rlimit_type), ("hard", jU r.hard),
    ("soft", jU r.soft)]

/-! ## Process (`src/lib.rs` lines 54-93) -/

/-- Process: `terminal` (`Option<bool>`), `console_size`
(`Option<ConsoleSizeBox>`, wire name `consoleSize`), `user` (`User`,
required), `args`/`env` (`Vec<String>`, `skip_serializing_if` but no
`#[serde(default)]`), `cwd` (`String`, required), `capabilities`
(`Option<LinuxCapabilities>`), `rlimits` (`Vec<POSIXRlimit>`,
`skip_serializing_if` and `#[serde(default)]`), `no_new_privileges`
(`Option<bool>`, wire `noNewPrivileges`), `app_armor_profile`
(`Option<String>`, wire `apparmorProfile`), `oom_score_adj`
(`Option<i32>`, wire `oomScoreAdj`), `selinux_label` (`Option<String>`,
wire `selinuxLabel`). -/
structure Process where
  terminal : Option Bool := none
  console_size : Option ConsoleSizeBox := none
  user : User := {}
  args : List String := []
  env : List String := []
  cwd : String := ""
  capabilities : Option LinuxCapabilities := none
  rlimits : List POSIXRlimit := []
  no_new_privileges : Option Bool := none
  app_armor_profile : Option String := none
  oom_score_adj : Option Int := none
  selinux_label : Option String := none

/-- Partially decoded `Process`. -/
structure ProcessPartial where
  terminal : Option (Option Bool) := none
  console_size : Option (Option ConsoleSizeBox) := none
  user : Option User := none
  args : Option (List String) := none
  env : Option (List String) := none
  cwd : Option String := none
  capabilities : Option (Option LinuxCapabilities) := none
  rlimits : Option (List POSIXRlimit) := none
  no_new_privileges : Option (Option Bool) := none
  app_armor_profile : Option (Option String) := none
  oom_score_adj : Option (Option Int) := none
  selinux_label : Option (Option String) := none

/-- One step of serde's visitor loop for `Process`. -/
def Process.step (st : ProcessPartial) (kv : String × Json) :
    Except String ProcessPartial :=
  if kv.1 = "terminal" then
    match st.terminal with
    | some _ => dup "terminal"
    | none =>
      match decOpt decBool kv.2 with
      | .error e => .error e
      | .ok x => .ok { st with terminal := some x }
  else if kv.1 = "consoleSize" then
    match st.console_size with
    | some _ => dup "consoleSize"
    | none =>
      match decOpt decodeConsoleSizeBox kv.2 with
      | .error e => .error e
      | .ok x => .ok { st with console_size := some x }
  else if kv.1 = "user" then
    match st.user with
    | some _ => dup "user"
    | none =>
      match decodeUser kv.2 with
      | .error e => .error e
      | .ok x => .ok { st with user := some x }
  else if kv.1 = "args" then
    match st.args with
    | some _ => dup "args"
    | none =>
      match decArrOf decStr kv.2 with
      | .error e => .error e
      | .ok x => .ok { st with args := some x }
  else if kv.1 = "env" then
    match st.env with
    | some _ => dup "env"
    | none =>
      match decArrOf decStr kv.2 with
      | .error e => .error e
      | .ok x => .ok { st with env := some x }
  else if kv.1 = "cwd" then
    match st.cwd with
    | some _ => dup "cwd"
    | none =>
      match decStr kv.2 with
      | .error e => .error e
      | .ok x => .ok { st with cwd := some x }
  else if kv.1 = "capabilities" then
    match st.capabilities with
    | some _ => dup "capabilities"
    | none =>
      match decOpt decodeLinuxCapabilities kv.2 with
      | .error e => .error e
      | .ok x => .ok { st with capabilities := some x }
  else if kv.1 = "rlimits" then
    match st.rlimits with
    | some _ => dup "rlimits"
    | none =>
      match decArrOf decodePOSIXRlimit kv.2 with
      | .error e => .error e
      | .ok x => .ok { st with rlimits := some x }
  else if kv.1 = "noNewPrivileges" then
    match st.no_new_privileges with
    | some _ => dup "noNewPrivileges"
    | none =>
      match decOpt decBool kv.2 with
      | .error e => .error e
      | .ok x => .ok { st with no_new_privileges := some x }
  else if kv.1 = "apparmorProfile" then
    match st.app_armor_profile with
    | some _ => dup "apparmorProfile"
    | none =>
      match decOpt decStr kv.2 with
      | .error e => .error e
      | .ok x => .ok { st with app_armor_profile := some x }
  else if kv.1 = "oomScoreAdj" then
    match st.oom_score_adj with
    | some _ => dup "oomScoreAdj"
    | none =>
      match decOpt (decSInt 32) kv.2 with
      | .error e => .error e
      | .ok x => .ok { st with oom_score_adj := some x }
  else if kv.1 = "selinuxLabel" then
    match st.selinux_label with
    | some _ => dup "selinuxLabel"
    | none =>
      match decOpt decStr kv.2 with
      | .error e => .error e
      | .ok x => .ok { st with selinux_label := some x }
  else .ok st

/-- serde's visitor loop for `Process`. -/
def Process.loop (st : ProcessPartial) : JFields → Except String ProcessPartial
  | [] => .ok st
  | kv :: rest =>
    match Process.step st kv with
    | .error e => .error e
    | .ok st' => Process.loop st' rest

/-- Deserialize a `Process`: `user`, `args`, `env` and `cwd` are required
(`args`/`env` carry no `#[serde(default)]`); the optional fields decode to
`none` when absent and `rlimits` to `[]`. -/
def decodeProcess (j : Json) : Except String Process :=
  match j.getObj with
  | .error e => .error e
  | .ok fs =>
    match Process.loop {} fs with
    | .error e => .error e
    | .ok st =>
      match req "user" st.user with
      | .error e => .error e
      | .ok user =>
        match req "args" st.args with
        | .error e => .error e
        | .ok args =>
          match req "env" st.env with
          | .error e => .error e
          | .ok env =>
            match req "cwd" st.cwd with
            | .error e => .error e
            | .ok cwd =>
              .ok { user, args, env, cwd
                    terminal := st.terminal.getD none
                    console_size := st.console_size.getD none
                    capabilities := st.capabilities.getD none
                    rlimits := st.rlimits.getD []
                    no_new_privileges := st.no_new_privileges.getD none
                    app_armor_profile := st.app_armor_profile.getD none
                    oom_score_adj := st.oom_score_adj.getD none
                    selinux_label := st.selinux_label.getD none }

/-- Serialize a `Process`. -/
def encodeProcess (p : Process) : Json :=
  .obj (optField "terminal" Json.bool p.terminal
    ++ optField "consoleSize" encodeConsoleSizeBox p.console_size
    ++ [("user", encodeUser p.user)]
    ++ vecField "args" Json.str p.args
    ++ vecField "env" Json.str p.env
    ++ [("cwd", Json.str p.cwd)]
    ++ optField "capabilities" encodeLinuxCapabilities p.capabilities
    ++ vecField "rlimits" encodePOSIXRlimit p.rlimits
    ++ optField "noNewPrivileges" Json.bool p.no_new_privileges
    ++ optField "apparmorProfile" Json.str p.app_armor_profile
    ++ optField "oomScoreAdj" Json.num p.oom_score_adj
    ++ optField "selinuxLabel" Json.str p.selinux_label)

/-! ## Root (`src/lib.rs` lines 143-152) -/

/-- Root: `path` (`String`, required), `readonly` (`Option<bool>`). -/
structure Root where
  path : String := ""
  readonly : Option Bool := none

/-- Partially decoded `Root`. -/
structure RootPartial where
  path : Option String := none
  readonly : Option (Option Bool) := none

/-- One step of serde's visitor loop for `Root`. -/
def Root.step (st : RootPartial) (kv : String × Json) :
    Except String RootPartial :=
  if kv.1 = "path" then
    match st.path with
    | some _ => dup "path"
    | none =>
      match decStr kv.2 with
      | .error e => .error e
      | .ok x => .ok { st with path := some x }
  else if kv.1 = "readonly" then
    match st.readonly with
    | some _ => dup "readonly"
    | none =>
      match decOpt decBool kv.2 with
      | .error e => .error e
      | .ok x => .ok { st with readonly := some x }
  else .ok st

/-- serde's visitor loop for `Root`. -/
def Root.loop (st : RootPartial) : JFields → Except String RootPartial
  | [] => .ok st
  | kv :: rest =>
    match Root.step st kv with
    | .error e => .error e
    | .ok st' => Root.loop st' rest

/-- Deserialize a `Root`. -/
def decodeRoot (j : Json) : Except String Root :=
  match j.getObj with
  | .error e => .error e
  | .ok fs =>
    match Root.loop {} fs with
    | .error e => .error e
    | .ok st =>
      match req "path" st.path with
      | .error e => .error e
      | .ok path => .ok { path, readonly := st.readonly.getD none }

/-- Serialize a `Root`. -/
def encodeRoot (r : Root) : Json :=
  .obj ([("path", Json.str r.path)]
    ++ optField "readonly" Json.bool r.readonly)

/-! ## Mount (`src/lib.rs` lines 154-169) -/

/-- Mount: `destination` (`String`, required), `mount_type`
(`Option<String>`, wire name `type`), `source` (`Option<String>`),
`options` (`Vec<String>`, `skip_serializing_if` and `#[serde(default)]`). -/
structure Mount where
  destination : String := ""
  mount_type : Option String := none
  source : Option String := none
  options : List String := []

/-- Partially decoded `Mount`. -/
structure MountPartial where
  destination : Option String := none
  mount_type : Option (Option String) := none
  source : Option (Option String) := none
  options : Option (List String) := none

/-- One step of serde's visitor loop for `Mount`. -/
def Mount.step (st : MountPartial) (kv : String × Json) :
    Except String MountPartial :=
  if kv.1 = "destination" then
    match st.destination with
    | some _ => dup "destination"
    | none =>
      match decStr kv.2 with
      | .error e => .error e
      | .ok x => .ok { st with destination := some x }
  else if kv.1 = "type" then
    match st.mount_type with
    | some _ => dup "type"
    | none =>
      match decOpt decStr kv.2 with
      | .error e => .error e
      | .ok x => .ok { st with mount_type := some x }
  else if kv.1 = "source" then
    match st.source with
    | some _ => dup "source"
    | none =>
      match decOpt decStr kv.2 with
      | .error e => .error e
      | .ok x => .ok { st with source := some x }
  else if kv.1 = "options" then
    match st.options with
    | some _ => dup "options"
    | none =>
      match decArrOf decStr kv.2 with
      | .error e => .error e
      | .ok x => .ok { st with options := some x }
  else .ok st

/-- serde's visitor loop for `Mount`. -/
def Mount.loop (st : MountPartial) : JFields → Except String MountPartial
  | [] => .ok st
  | kv :: rest =>
    match Mount.step st kv with
    | .error e => .error e
    | .ok st' => Mount.loop st' rest

/-- Deserialize a `Mount`. -/
def decodeMount (j : Json) : Except String Mount :=
  match j.getObj with
  | .error e => .error e
  | .ok fs =>
    match Mount.loop {} fs with
    | .error e => .error e
    | .ok st =>
      match req "destination" st.destination with
      | .error e => .error e
      | .ok destination =>
        .ok { destination
              mount_type := st.mount_type.getD none
              source := st.source.getD none
              options := st.options.getD [] }

/-- Serialize a `Mount`. -/
def encodeMount (m : Mount) : Json :=
  .obj ([("destination", Json.str m.destination)]
    ++ optField "type" Json.str m.mount_type
    ++ optField "source" Json.str m.source
    ++ vecField "options" Json.str m.options)

/-! ## Hook (`src/lib.rs` lines 171-182) -/

/-- Hook: `path` (`String`, required), `args`/`env` (`Vec<String>`,
`skip_serializing_if` but no `#[serde(default)]`), `timeout`
(`Option<i32>`). -/
structure Hook where
  path : String := ""
  args : List String := []
  env : List String := []
  timeout : Option Int := none

/-- Partially decoded `Hook`. -/
structure HookPartial where
  path : Option String := none
  args : Option (List String) := none
  env : Option (List String) := none
  timeout : Option (Option Int) := none

/-- One step of serde's visitor loop for `Hook`. -/
def Hook.step (st : HookPartial) (kv : String × Json) :
    Except String HookPartial :=
  if kv.1 = "path" then
    match st.path with
    | some _ => dup "path"
    | none =>
      match decStr kv.2 with
      | .error e => .error e
      | .ok x => .ok { st with path := some x }
  else if kv.1 = "args" then
    match st.args with
    | some _ => dup "args"
    | none =>
      match decArrOf decStr kv.2 with
      | .error e => .error e
      | .ok x => .ok { st with args := some x }
  else if kv.1 = "env" then
    match st.env with
    | some _ => dup "env"
    | none =>
      match decArrOf decStr kv.2 with
      | .error e => .error e
      | .ok x => .ok { st with env := some x }
  else if kv.1 = "timeout" then
    match st.timeout with
    | some _ => dup "timeout"
    | none =>
      match decOpt (decSInt 32) kv.2 with
      | .error e => .error e
      | .ok x => .ok { st with timeout := some x }
  else .ok st

/-- serde's visitor loop for `Hook`. -/
def Hook.loop (st : HookPartial) : JFields → Except String HookPartial
  | [] => .ok st
  | kv :: rest =>
    match Hook.step st kv with
    | .error e => .error e
    | .ok st' => Hook.loop st' rest

/-- Deserialize a `Hook`: `path`, `args` and `env` are required. -/
def decodeHook (j : Json) : Except String Hook :=
  match j.getObj with
  | .error e => .error e
  | .ok fs =>
    match Hook.loop {} fs with
    | .error e => .error e
    | .ok st =>
      match req "path" st.path with
      | .error e => .error e
      | .ok path =>
        match req "args" st.args with
        | .error e => .error e
        | .ok args =>
          match req "env" st.env with
          | .error e => .error e
          | .ok env => .ok { path, args, env, timeout := st.timeout.getD none }

/-- Serialize a `Hook`. -/
def encodeHook (h : Hook) : Json :=
  .obj ([("path", Json.str h.path)]
    ++ vecField "args" Json.str h.args
    ++ vecField "env" Json.str h.env
    ++ optField "timeout" Json.num h.timeout)

/-! ## Hooks (`src/lib.rs` lines 184-213) -/

/-- Hooks: four `Vec<Hook>` lists (`prestart`, `create_runtime` as wire
`createRuntime`, `create_container` as wire `createContainer`,
`start_container` as wire `startContainer`) and two `Vec<String>` lists
(`poststart`, `poststop`); all six have `skip_serializing_if` and
`#[serde(default)]`. -/
structure Hooks where
  prestart : List Hook := []
  create_runtime : List Hook := []
  create_container : List Hook := []
  start_container : List Hook := []
  poststart : List String := []
  poststop : List String := []

/-- Partially decoded `Hooks`. -/
structure HooksPartial where
  prestart : Option (List Hook) := none
  create_runtime : Option (List Hook) := none
  create_container : Option (List Hook) := none
  start_container : Option (List Hook) := none
  poststart : Option (List String) := none
  poststop : Option (List String) := none

/-- One step of serde's visitor loop for `Hooks`. -/
def Hooks.step (st : HooksPartial) (kv : String × Json) :
    Except String HooksPartial :=
  if kv.1 = "prestart" then
    match st.prestart with
    | some _ => dup "prestart"
    | none =>
      match decArrOf decodeHook kv.2 with
      | .error e => .error e
      | .ok x => .ok { st with prestart := some x }
  else if kv.1 = "createRuntime" then
    match st.create_runtime with
    | some _ => dup "createRuntime"
    | none =>
      match decArrOf decodeHook kv.2 with
      | .error e => .error e
      | .ok x => .ok { st with create_runtime := some x }
  else if kv.1 = "createContainer" then
    match st.create_container with
    | some _ => dup "createContainer"
    | none =>
      match decArrOf decodeHook kv.2 with
      | .error e => .error e
      | .ok x => .ok { st with create_container := some x }
  else if kv.1 = "startContainer" then
    match st.start_container with
    | some _ => dup "startContainer"
    | none =>
      match decArrOf decodeHook kv.2 with
      | .error e => .error e
      | .ok x => .ok { st with start_container := some x }
  else if kv.1 = "poststart" then
    match st.poststart with
    | some _ => dup "poststart"
    | none =>
      match decArrOf decStr kv.2 with
      | .error e => .error e
      | .ok x => .ok { st with poststart := some x }
  else if kv.1 = "poststop" then
    match st.poststop with
    | some _ => dup "poststop"
    | none =>
      match decArrOf decStr kv.2 with
      | .error e => .error e
      | .ok x => .ok { st with poststop := some x }
  else .ok st

/-- serde's visitor loop for `Hooks`. -/
def Hooks.loop (st : HooksPartial) : JFields → Except String HooksPartial
  | [] => .ok st
  | kv :: rest =>
    match Hooks.step st kv with
    | .error e => .error e
    | .ok st' => Hooks.loop st' rest

/-- Deserialize a `Hooks`: every field defaults to `[]` when absent. -/
def decodeHooks (j : Json) : Except String Hooks :=
  match j.getObj with
  | .error e => .error e
  | .ok fs =>
    match Hooks.loop {} fs with
    | .error e => .error e
    | .ok st =>
      .ok { prestart := st.prestart.getD []
            create_runtime := st.create_runtime.getD []
            create_container := st.create_container.getD []
            start_container := st.start_container.getD []
            poststart := st.poststart.getD []
            poststop := st.poststop.getD [] }

/-- Serialize a `Hooks`. -/
def encodeHooks (h : Hooks) : Json :=
  .obj (vecField "prestart" encodeHook h.prestart
    ++ vecField "createRuntime" encodeHook h.create_runtime
    ++ vecField "createContainer" encodeHook h.create_container
    ++ vecField "startContainer" encodeHook h.start_container
    ++ vecField "poststart" Json.str h.poststart
    ++ vecField "poststop" Json.str h.poststop)

/-! ## LinuxIDMapping (`src/lib.rs` lines 280-292) -/

/-- LinuxIDMapping: `container_id` (wire `containerID`), `host_id` (wire
`hostID`), `size`, all `u32` and required. -/
structure LinuxIDMapping where
  container_id : Nat := 0
  host_id : Nat := 0
  size : Nat := 0

/-- Partially decoded `LinuxIDMapping`. -/
structure LinuxIDMappingPartial where
  container_id : Option Nat := none
  host_id : Option Nat := none
  size : Option Nat := none

/-- One step of serde's visitor loop for `LinuxIDMapping`. -/
def LinuxIDMapping.step (st : LinuxIDMappingPartial) (kv : String × Json) :
    Except String LinuxIDMappingPartial :=
  if kv.1 = "containerID" then
    match st.container_id with
    | some _ => dup "containerID"
    | none =>
      match decUInt 32 kv.2 with
      | .error e => .error e
      | .ok x => .ok { st with container_id := some x }
  else if kv.1 = "hostID" then
    match st.host_id with
    | some _ => dup "hostID"
    | none =>
      match decUInt 32 kv.2 with
      | .error e => .error e
      | .ok x => .ok { st with host_id := some x }
  else if kv.1 = "size" then
    match st.size with
    | some _ => dup "size"
    | none =>
      match decUInt 32 kv.2 with
      | .error e => .error e
      | .ok x => .ok { st with size := some x }
  else .ok st

/-- serde's visitor loop for `LinuxIDMapping`. -/
def LinuxIDMapping.loop (st : LinuxIDMappingPartial) :
    JFields → Except String LinuxIDMappingPartial
  | [] => .ok st
  | kv :: rest =>
    match LinuxIDMapping.step st kv with
    | .error e => .error e
    | .ok st' => LinuxIDMapping.loop st' rest

/-- Deserialize a `LinuxIDMapping`. -/
def decodeLinuxIDMapping (j : Json) : Except String LinuxIDMapping :=
  match j.getObj with
  | .error e => .error e
  | .ok fs =>
    match LinuxIDMapping.loop {} fs with
    | .error e => .error e
    | .ok st =>
      match req "containerID" st.container_id with
      | .error e => .error e
      | .ok container_id =>
        match req "hostID" st.host_id with
        | .error e => .error e
        | .ok host_id =>
          match req "size" st.size with
          | .error e => .error e
          | .ok size => .ok { container_id, host_id, size }

/-- Serialize a `LinuxIDMapping`. -/
def encodeLinuxIDMapping (m : LinuxIDMapping) : Json :=
  .obj [("containerID", jU m.container_id), ("hostID", jU m.host_id),
    ("size", jU m.size)]

/-! ## LinuxNamespace (`src/lib.rs` lines 267-278) -/

/-- LinuxNamespace: `namespace_type` (wire name `type`, required), `path`
(`Option<String>`). -/
structure LinuxNamespace where
  namespace_type : String := ""
  path : Option String := none

/-- Partially decoded `LinuxNamespace`. -/
structure LinuxNamespacePartial where
  namespace_type : Option String := none
  path : Option (Option String) := none

/-- One step of serde's visitor loop for `LinuxNamespace`. -/
def LinuxNamespace.step (st : LinuxNamespacePartial) (kv : String × Json) :
    Except String LinuxNamespacePartial :=
  if kv.1 = "type" then
    match st.namespace_type with
    | some _ => dup "type"
    | none =>
      match decStr kv.2 with
      | .error e => .error e
      | .ok x => .ok { st with namespace_type := some x }
  else if kv.1 = "path" then
    match st.path with
    | some _ => dup "path"
    | none =>
      match decOpt decStr kv.2 with
      | .error e => .error e
      | .ok x => .ok { st with path := some x }
  else .ok st

/-- serde's visitor loop for `LinuxNamespace`. -/
def LinuxNamespace.loop (st : LinuxNamespacePartial) :
    JFields → Except String LinuxNamespacePartial
  | [] => .ok st
  | kv :: rest =>
    match LinuxNamespace.step st kv with
    | .error e => .error e
    | .ok st' => LinuxNamespace.loop st' rest

/-- Deserialize a `LinuxNamespace`. -/
def decodeLinuxNamespace (j : Json) : Except String LinuxNamespace :=
  match j.getObj with
  | .error e => .error e
  | .ok fs =>
    match LinuxNamespace.loop {} fs with
    | .error e => .error e
    | .ok st =>
      match req "type" st.namespace_type with
      | .error e => .error e
      | .ok namespace_type =>
        .ok { namespace_type, path := st.path.getD none }

/-- Serialize a `LinuxNamespace`. -/
def encodeLinuxNamespace (n : LinuxNamespace) : Json :=
  .obj ([("type", Json.str n.namespace_type)]
    ++ optField "path" Json.str n.path)

/-! ## LinuxDevice (`src/lib.rs` lines 517-539) -/

/-- LinuxDevice: `path`, `device_type` (wire `type`), `major`, `minor`
(`i64`) required; `file_mode` (wire `fileMode`), `uid`, `gid`
(`Option<u32>`). -/
structure LinuxDevice where
  path : String := ""
  device_type : String := ""
  major : Int := 0
  minor : Int := 0
  file_mode : Option Nat := none
  uid : Option Nat := none
  gid : Option Nat := none

/-- Partially decoded `LinuxDevice`. -/
structure LinuxDevicePartial where
  path : Option String := none
  device_type : Option String := none
  major : Option Int := none
  minor : Option Int := none
  file_mode : Option (Option Nat) := none
  uid : Option (Option Nat) := none
  gid : Option (Option Nat) := none

/-- One step of serde's visitor loop for `LinuxDevice`. -/
def LinuxDevice.step (st : LinuxDevicePartial) (kv : String × Json) :
    Except String LinuxDevicePartial :=
  if kv.1 = "path" then
    match st.path with
    | some _ => dup "path"
    | none =>
      match decStr kv.2 with
      | .error e => .error e
      | .ok x => .ok { st with path := some x }
  else if kv.1 = "type" then
    match st.device_type with
    | some _ => dup "type"
    | none =>
      match decStr kv.2 with
      | .error e => .error e
      | .ok x => .ok { st with device_type := some x }
  else if kv.1 = "major" then
    match st.major with
    | some _ => dup "major"
    | none =>
      match decSInt 64 kv.2 with
      | .error e => .error e
      | .ok x => .ok { st with major := some x }
  else if kv.1 = "minor" then
    match st.minor with
    | some _ => dup "minor"
    | none =>
      match decSInt 64 kv.2 with
      | .error e => .error e
      | .ok x => .ok { st with minor := some x }
  else if kv.1 = "fileMode" then
    match st.file_mode with
    | some _ => dup "fileMode"
    | none =>
      match decOpt (decUInt 32) kv.2 with
      | .error e => .error e
      | .ok x => .ok { st with file_mode := some x }
  else if kv.1 = "uid" then
    match st.uid with
    | some _ => dup "uid"
    | none =>
      match decOpt (decUInt 32) kv.2 with
      | .error e => .error e
      | .ok x => .ok { st with uid := some x }
  else if kv.1 = "gid" then
    match st.gid with
    | some _ => dup "gid"
    | none =>
      match decOpt (decUInt 32) kv.2 with
      | .error e => .error e
      | .ok x => .ok { st with gid := some x }
  else .ok st

/-- serde's visitor loop for `LinuxDevice`. -/
def LinuxDevice.loop (st : LinuxDevicePartial) :
    JFields → Except String LinuxDevicePartial
  | [] => .ok st
  | kv :: rest =>
    match LinuxDevice.step st kv with
    | .error e => .error e
    | .ok st' => LinuxDevice.loop st' rest

/-- Deserialize a `LinuxDevice`. -/
def decodeLinuxDevice (j : Json) : Except String LinuxDevice :=
  match j.getObj with
  | .error e => .error e
  | .ok fs =>
    match LinuxDevice.loop {} fs with
    | .error e => .error e
    | .ok st =>
      match req "path" st.path with
      | .error e => .error e
      | .ok path =>
        match req "type" st.device_type with
        | .error e => .error e
        | .ok device_type =>
          match req "major" st.major with
          | .error e => .error e
          | .ok major =>
            match req "minor" st.minor with
            | .error e => .error e
            | .ok minor =>
              .ok { path, device_type, major, minor
                    file_mode := st.file_mode.getD none
                    uid := st.uid.getD none
                    gid := st.gid.getD none }

/-- Serialize a `LinuxDevice`. -/
def encodeLinuxDevice (d : LinuxDevice) : Json :=
  .obj ([("path", Json.str d.path), ("type", Json.str d.device_type),
    ("major", Json.num d.major), ("minor", Json.num d.minor)]
    ++ optField "fileMode" jU d.file_mode
    ++ optField "uid" jU d.uid
    ++ optField "gid" jU d.gid)

/-! ## LinuxHugepageLimit (`src/lib.rs` lines 307-317) -/

/-- LinuxHugepageLimit: `page_size` (wire `pageSize`, `String`) and
`limit` (`u64`), both required. -/
structure LinuxHugepageLimit where
  page_size : String := ""
  limit : Nat := 0

/-- Partially decoded `LinuxHugepageLimit`. -/
structure LinuxHugepageLimitPartial where
  page_size : Option String := none
  limit : Option Nat := none

/-- One step of serde's visitor loop for `LinuxHugepageLimit`. -/
def LinuxHugepageLimit.step (st : LinuxHugepageLimitPartial)
    (kv : String × Json) : Except String LinuxHugepageLimitPartial :=
  if kv.1 = "pageSize" then
    match st.page_size with
    | some _ => dup "pageSize"
    | none =>
      match decStr kv.2 with
      | .error e => .error e
      | .ok x => .ok { st with page_size := some x }
  else if kv.1 = "limit" then
    match st.limit with
    | some _ => dup "limit"
    | none =>
      match decUInt 64 kv.2 with
      | .error e => .error e
      | .ok x => .ok { st with limit := some x }
  else .ok st

/-- serde's visitor loop for `LinuxHugepageLimit`. -/
def LinuxHugepageLimit.loop (st : LinuxHugepageLimitPartial) :
    JFields → Except String LinuxHugepageLimitPartial
  | [] => .ok st
  | kv :: rest =>
    match LinuxHugepageLimit.step st kv with
    | .error e => .error e
    | .ok st' => LinuxHugepageLimit.loop st' rest

/-- Deserialize a `LinuxHugepageLimit`. -/
def decodeLinuxHugepageLimit (j : Json) : Except String LinuxHugepageLimit :=
  match j.getObj with
  | .error e => .error e
  | .ok fs =>
    match LinuxHugepageLimit.loop {} fs with
    | .error e => .error e
    | .ok st =>
      match req "pageSize" st.page_size with
      | .error e => .error e
      | .ok page_size =>
        match req "limit" st.limit with
        | .error e => .error e
        | .ok limit => .ok { page_size, limit }

/-- Serialize a `LinuxHugepageLimit`. -/
def encodeLinuxHugepageLimit (h : LinuxHugepageLimit) : Json :=
  .obj [("pageSize", Json.str h.page_size), ("limit", jU h.limit)]

/-! ## LinuxInterfacePriority (`src/lib.rs` lines 319-327) -/

/-- LinuxInterfacePriority: `name` (`String`) and `priority` (`u32`),
both required. -/
structure LinuxInterfacePriority where
  name : String := ""
  priority : Nat := 0

/-- Partially decoded `LinuxInterfacePriority`. -/
structure LinuxInterfacePriorityPartial where
  name : Option String := none
  priority : Option Nat := none

/-- One step of serde's visitor loop for `LinuxInterfacePriority`. -/
def LinuxInterfacePriority.step (st : LinuxInterfacePriorityPartial)
    (kv : String × Json) : Except String LinuxInterfacePriorityPartial :=
  if kv.1 = "name" then
    match st.name with
    | some _ => dup "name"
    | none =>
      match decStr kv.2 with
      | .error e => .error e
      | .ok x => .ok { st with name := some x }
  else if kv.1 = "priority" then
    match st.priority with
    | some _ => dup "priority"
    | none =>
      match decUInt 32 kv.2 with
      | .error e => .error e
      | .ok x => .ok { st with priority := some x }
  else .ok st

/-- serde's visitor loop for `LinuxInterfacePriority`. -/
def LinuxInterfacePriority.loop (st : LinuxInterfacePriorityPartial) :
    JFields → Except String LinuxInterfacePriorityPartial
  | [] => .ok st
  | kv :: rest =>
    match LinuxInterfacePriority.step st kv with
    | .error e => .error e
    | .ok st' => LinuxInterfacePriority.loop st' rest

/-- Deserialize a `LinuxInterfacePriority`. -/
def decodeLinuxInterfacePriority (j : Json) :
    Except String LinuxInterfacePriority :=
  match j.getObj with
  | .error e => .error e
  | .ok fs =>
    match LinuxInterfacePriority.loop {} fs with
    | .error e => .error e
    | .ok st =>
      match req "name" st.name with
      | .error e => .error e
      | .ok name =>
        match req "priority" st.priority with
        | .error e => .error e
        | .ok priority => .ok { name, priority }

/-- Serialize a `LinuxInterfacePriority`. -/
def encodeLinuxInterfacePriority (p : LinuxInterfacePriority) : Json :=
  .obj [("name", Json.str p.name), ("priority", jU p.priority)]

/-! ## LinuxWeightDevice (`src/lib.rs` lines 329-343) -/

/-- LinuxWeightDevice: `major`/`minor` (`i64`, required), `weight`
(`Option<u16>`), `leaf_weight` (wire `leafWeight`, `Option<u16>`). -/
structure LinuxWeightDevice where
  major : Int := 0
  minor : Int := 0
  weight : Option Nat := none
  leaf_weight : Option Nat := none

/-- Partially decoded `LinuxWeightDevice`. -/
structure LinuxWeightDevicePartial where
  major : Option Int := none
  minor : Option Int := none
  weight : Option (Option Nat) := none
  leaf_weight : Option (Option Nat) := none

/-- One step of serde's visitor loop for `LinuxWeightDevice`. -/
def LinuxWeightDevice.step (st : LinuxWeightDevicePartial)
    (kv : String × Json) : Except String LinuxWeightDevicePartial :=
  if kv.1 = "major" then
    match st.major with
    | some _ => dup "major"
    | none =>
      match decSInt 64 kv.2 with
      | .error e => .error e
      | .ok x => .ok { st with major := some x }
  else if kv.1 = "minor" then
    match st.minor with
    | some _ => dup "minor"
    | none =>
      match decSInt 64 kv.2 with
      | .error e => .error e
      | .ok x => .ok { st with minor := some x }
  else if kv.1 = "weight" then
    match st.weight with
    | some _ => dup "weight"
    | none =>
      match decOpt (decUInt 16) kv.2 with
      | .error e => .error e
      | .ok x => .ok { st with weight := some x }
  else if kv.1 = "leafWeight" then
    match st.leaf_weight with
    | some _ => dup "leafWeight"
    | none =>
      match decOpt (decUInt 16) kv.2 with
      | .error e => .error e
      | .ok x => .ok { st with leaf_weight := some x }
  else .ok st

/-- serde's visitor loop for `LinuxWeightDevice`. -/
def LinuxWeightDevice.loop (st : LinuxWeightDevicePartial) :
    JFields → Except String LinuxWeightDevicePartial
  | [] => .ok st
  | kv :: rest =>
    match LinuxWeightDevice.step st kv with
    | .error e => .error e
    | .ok st' => LinuxWeightDevice.loop st' rest

/-- Deserialize a `LinuxWeightDevice`. -/
def decodeLinuxWeightDevice (j : Json) : Except String LinuxWeightDevice :=
  match j.getObj with
  | .error e => .error e
  | .ok fs =>
    match LinuxWeightDevice.loop {} fs with
    | .error e => .error e
    | .ok st =>
      match req "major" st.major with
      | .error e => .error e
      | .ok major =>
        match req "minor" st.minor with
        | .error e => .error e
        | .ok minor =>
          .ok { major, minor
                weight := st.weight.getD none
                leaf_weight := st.leaf_weight.getD none }

/-- Serialize a `LinuxWeightDevice`. -/
def encodeLinuxWeightDevice (d : LinuxWeightDevice) : Json :=
  .obj ([("major", Json.num d.major), ("minor", Json.num d.minor)]
    ++ optField "weight" jU d.weight
    ++ optField "leafWeight" jU d.leaf_weight)

/-! ## LinuxThrottleDevice (`src/lib.rs` lines 345-355) -/

/-- LinuxThrottleDevice: `major`/`minor` (`i64`) and `rate` (`u64`), all
required. -/
structure LinuxThrottleDevice where
  major : Int := 0
  minor : Int := 0
  rate : Nat := 0

/-- Partially decoded `LinuxThrottleDevice`. -/
structure LinuxThrottleDevicePartial where
  major : Option Int := none
  minor : Option Int := none
  rate : Option Nat := none

/-- One step of serde's visitor loop for `LinuxThrottleDevice`. -/
def LinuxThrottleDevice.step (st : LinuxThrottleDevicePartial)
    (kv : String × Json) : Except String LinuxThrottleDevicePartial :=
  if kv.1 = "major" then
    match st.major with
    | some _ => dup "major"
    | none =>
      match decSInt 64 kv.2 with
      | .error e => .error e
      | .ok x => .ok { st with major := some x }
  else if kv.1 = "minor" then
    match st.minor with
    | some _ => dup "minor"
    | none =>
      match decSInt 64 kv.2 with
      | .error e => .error e
      | .ok x => .ok { st with minor := some x }
  else if kv.1 = "rate" then
    match st.rate with
    | some _ => dup "rate"
    | none =>
      match decUInt 64 kv.2 with
      | .error e => .error e
      | .ok x => .ok { st with rate := some x }
  else .ok st

/-- serde's visitor loop for `LinuxThrottleDevice`. -/
def LinuxThrottleDevice.loop (st : LinuxThrottleDevicePartial) :
    JFields → Except String LinuxThrottleDevicePartial
  | [] => .ok st
  | kv :: rest =>
    match LinuxThrottleDevice.step st kv with
    | .error e => .error e
    | .ok st' => LinuxThrottleDevice.loop st' rest

/-- Deserialize a `LinuxThrottleDevice`. -/
def decodeLinuxThrottleDevice (j : Json) : Except String LinuxThrottleDevice :=
  match j.getObj with
  | .error e => .error e
  | .ok fs =>
    match LinuxThrottleDevice.loop {} fs with
    | .error e => .error e
    | .ok st =>
      match req "major" st.major with
      | .error e => .error e
      | .ok major =>
        match req "minor" st.minor with
        | .error e => .error e
        | .ok minor =>
          match req "rate" st.rate with
          | .error e => .error e
          | .ok rate => .ok { major, minor, rate }

/-- Serialize a `LinuxThrottleDevice`. -/
def encodeLinuxThrottleDevice (d : LinuxThrottleDevice) : Json :=
  .obj [("major", Json.num d.major), ("minor", Json.num d.minor),
    ("rate", jU d.rate)]

/-! ## LinuxMemory (`src/lib.rs` lines 396-424) -/

/-- LinuxMemory: all fields optional — `limit`, `reservation`, `swap`,
`kernel`, `kernel_tcp` (wire `kernelTCP`), `swappiness` (`Option<i64>`),
`disable_oom_killer` (wire `disableOOMKiller`), `use_hierarchy` (wire
`useHierarchy`) (`Option<bool>`). -/
structure LinuxMemory where
  limit : Option Int := none
  reservation : Option Int := none
  swap : Option Int := none
  kernel : Option Int := none
  kernel_tcp : Option Int := none
  swappiness : Option Int := none
  disable_oom_killer : Option Bool := none
  use_hierarchy : Option Bool := none

/-- Partially decoded `LinuxMemory`. -/
structure LinuxMemoryPartial where
  limit : Option (Option Int) := none
  reservation : Option (Option Int) := none
  swap : Option (Option Int) := none
  kernel : Option (Option Int) := none
  kernel_tcp : Option (Option Int) := none
  swappiness : Option (Option Int) := none
  disable_oom_killer : Option (Option Bool) := none
  use_hierarchy : Option (Option Bool) := none

/-- One step of serde's visitor loop for `LinuxMemory`. -/
def LinuxMemory.step (st : LinuxMemoryPartial) (kv : String × Json) :
    Except String LinuxMemoryPartial :=
  if kv.1 = "limit" then
    match st.limit with
    | some _ => dup "limit"
    | none =>
      match decOpt (decSInt 64) kv.2 with
      | .error e => .error e
      | .ok x => .ok { st with limit := some x }
  else if kv.1 = "reservation" then
    match st.reservation with
    | some _ => dup "reservation"
    | none =>
      match decOpt (decSInt 64) kv.2 with
      | .error e => .error e
      | .ok x => .ok { st with reservation := some x }
  else if kv.1 = "swap" then
    match st.swap with
    | some _ => dup "swap"
    | none =>
      match decOpt (decSInt 64) kv.2 with
      | .error e => .error e
      | .ok x => .ok { st with swap := some x }
  else if kv.1 = "kernel" then
    match st.kernel with
    | some _ => dup "kernel"
    | none =>
      match decOpt (decSInt 64) kv.2 with
      | .error e => .error e
      | .ok x => .ok { st with kernel := some x }
  else if kv.1 = "kernelTCP" then
    match st.kernel_tcp with
    | some _ => dup "kernelTCP"
    | none =>
      match decOpt (decSInt 64) kv.2 with
      | .error e => .error e
      | .ok x => .ok { st with kernel_tcp := some x }
  else if kv.1 = "swappiness" then
    match st.swappiness with
    | some _ => dup "swappiness"
    | none =>
      match decOpt (decSInt 64) kv.2 with
      | .error e => .error e
      | .ok x => .ok { st with swappiness := some x }
  else if kv.1 = "disableOOMKiller" then
    match st.disable_oom_killer with
    | some _ => dup "disableOOMKiller"
    | none =>
      match decOpt decBool kv.2 with
      | .error e => .error e
      | .ok x => .ok { st with disable_oom_killer := some x }
  else if kv.1 = "useHierarchy" then
    match st.use_hierarchy with
    | some _ => dup "useHierarchy"
    | none =>
      match decOpt decBool kv.2 with
      | .error e => .error e
      | .ok x => .ok { st with use_hierarchy := some x }
  else .ok st

/-- serde's visitor loop for `LinuxMemory`. -/
def LinuxMemory.loop (st : LinuxMemoryPartial) :
    JFields → Except String LinuxMemoryPartial
  | [] => .ok st
  | kv :: rest =>
    match LinuxMemory.step st kv with
    | .error e => .error e
    | .ok st' => LinuxMemory.loop st' rest

/-- Deserialize a `LinuxMemory`: no field is required. -/
def decodeLinuxMemory (j : Json) : Except String LinuxMemory :=
  match j.getObj with
  | .error e => .error e
  | .ok fs =>
    match LinuxMemory.loop {} fs with
    | .error e => .error e
    | .ok st =>
      .ok { limit := st.limit.getD none
            reservation := st.reservation.getD none
            swap := st.swap.getD none
            kernel := st.kernel.getD none
            kernel_tcp := st.kernel_tcp.getD none
            swappiness := st.swappiness.getD none
            disable_oom_killer := st.disable_oom_killer.getD none
            use_hierarchy := st.use_hierarchy.getD none }

/-- Serialize a `LinuxMemory`. -/
def encodeLinuxMemory (m : LinuxMemory) : Json :=
  .obj (optField "limit" Json.num m.limit
    ++ optField "reservation" Json.num m.reservation
    ++ optField "swap" Json.num m.swap
    ++ optField "kernel" Json.num m.kernel
    ++ optField "kernelTCP" Json.num m.kernel_tcp
    ++ optField "swappiness" Json.num m.swappiness
    ++ optField "disableOOMKiller" Json.bool m.disable_oom_killer
    ++ optField "useHierarchy" Json.bool m.use_hierarchy)

/-! ## LinuxCPU (`src/lib.rs` lines 426-451) -/

/-- LinuxCPU: all fields optional — `shares`/`period`/`realtime_period`
(wire `realtimePeriod`) (`Option<u64>`), `quota`/`realtime_runtime` (wire
`realtimeRuntime`) (`Option<i64>`), `cpus`/`mems` (`Option<String>`). -/
structure LinuxCPU where
  shares : Option Nat := none
  quota : Option Int := none
  period : Option Nat := none
  realtime_runtime : Option Int := none
  realtime_period : Option Nat := none
  cpus : Option String := none
  mems : Option String := none

/-- Partially decoded `LinuxCPU`. -/
structure LinuxCPUPartial where
  shares : Option (Option Nat) := none
  quota : Option (Option Int) := none
  period : Option (Option Nat) := none
  realtime_runtime : Option (Option Int) := none
  realtime_period : Option (Option Nat) := none
  cpus : Option (Option String) := none
  mems : Option (Option String) := none

/-- One step of serde's visitor loop for `LinuxCPU`. -/
def LinuxCPU.step (st : LinuxCPUPartial) (kv : String × Json) :
    Except String LinuxCPUPartial :=
  if kv.1 = "shares" then
    match st.shares with
    | some _ => dup "shares"
    | none =>
      match decOpt (decUInt 64) kv.2 with
      | .error e => .error e
      | .ok x => .ok { st with shares := some x }
  else if kv.1 = "quota" then
    match st.quota with
    | some _ => dup "quota"
    | none =>
      match decOpt (decSInt 64) kv.2 with
      | .error e => .error e
      | .ok x => .ok { st with quota := some x }
  else if kv.1 = "period" then
    match st.period with
    | some _ => dup "period"
    | none =>
      match decOpt (decUInt 64) kv.2 with
      | .error e => .error e
      | .ok x => .ok { st with period := some x }
  else if kv.1 = "realtimeRuntime" then
    match st.realtime_runtime with
    | some _ => dup "realtimeRuntime"
    | none =>
      match decOpt (decSInt 64) kv.2 with
      | .error e => .error e
      | .ok x => .ok { st with realtime_runtime := some x }
  else if kv.1 = "realtimePeriod" then
    match st.realtime_period with
    | some _ => dup "realtimePeriod"
    | none =>
      match decOpt (decUInt 64) kv.2 with
      | .error e => .error e
      | .ok x => .ok { st with realtime_period := some x }
  else if kv.1 = "cpus" then
    match st.cpus with
    | some _ => dup "cpus"
    | none =>
      match decOpt decStr kv.2 with
      | .error e => .error e
      | .ok x => .ok { st with cpus := some x }
  else if kv.1 = "mems" then
    match st.mems with
    | some _ => dup "mems"
    | none =>
      match decOpt decStr kv.2 with
      | .error e => .error e
      | .ok x => .ok { st with mems := some x }
  else .ok st

/-- serde's visitor loop for `LinuxCPU`. -/
def LinuxCPU.loop (st : LinuxCPUPartial) :
    JFields → Except String LinuxCPUPartial
  | [] => .ok st
  | kv :: rest =>
    match LinuxCPU.step st kv with
    | .error e => .error e
    | .ok st' => LinuxCPU.loop st' rest

/-- Deserialize a `LinuxCPU`: no field is required. -/
def decodeLinuxCPU (j : Json) : Except String LinuxCPU :=
  match j.getObj with
  | .error e => .error e
  | .ok fs =>
    match LinuxCPU.loop {} fs with
    | .error e => .error e
    | .ok st =>
      .ok { shares := st.shares.getD none
            quota := st.quota.getD none
            period := st.period.getD none
            realtime_runtime := st.realtime_runtime.getD none
            realtime_period := st.realtime_period.getD none
            cpus := st.cpus.getD none
            mems := st.mems.getD none }

/-- Serialize a `LinuxCPU`. -/
def encodeLinuxCPU (c : LinuxCPU) : Json :=
  .obj (optField "shares" jU c.shares
    ++ optField "quota" Json.num c.quota
    ++ optField "period" jU c.period
    ++ optField "realtimeRuntime" Json.num c.realtime_runtime
    ++ optField "realtimePeriod" jU c.realtime_period
    ++ optField "cpus" Json.str c.cpus
    ++ optField "mems" Json.str c.mems)

/-! ## LinuxPids (`src/lib.rs` lines 453-459) -/

/-- LinuxPids: single required `limit` (`i64`), always emitted. -/
structure LinuxPids where
  limit : Int := 0

/-- Partially decoded `LinuxPids`. -/
structure LinuxPidsPartial where
  limit : Option Int := none

/-- One step of serde's visitor loop for `LinuxPids`. -/
def LinuxPids.step (st : LinuxPidsPartial) (kv : String × Json) :
    Except String LinuxPidsPartial :=
  if kv.1 = "limit" then
    match st.limit with
    | some _ => dup "limit"
    | none =>
      match decSInt 64 kv.2 with
      | .error e => .error e
      | .ok x => .ok { st with limit := some x }
  else .ok st

/-- serde's visitor loop for `LinuxPids`. -/
def LinuxPids.loop (st : LinuxPidsPartial) :
    JFields → Except String LinuxPidsPartial
  | [] => .ok st
  | kv :: rest =>
    match LinuxPids.step st kv with
    | .error e => .error e
    | .ok st' => LinuxPids.loop st' rest

/-- Deserialize a `LinuxPids`. -/
def decodeLinuxPids (j : Json) : Except String LinuxPids :=
  match j.getObj with
  | .error e => .error e
  | .ok fs =>
    match LinuxPids.loop {} fs with
    | .error e => .error e
    | .ok st =>
      match req "limit" st.limit with
      | .error e => .error e
      | .ok limit => .ok { limit }

/-- Serialize a `LinuxPids`. -/
def encodeLinuxPids (p : LinuxPids) : Json :=
  .obj [("limit", Json.num p.limit)]

/-! ## LinuxNetwork (`src/lib.rs` lines 461-471) -/

/-- LinuxNetwork: `class_id` (wire `classID`, `Option<u32>`),
`priorities` (`Vec<LinuxInterfacePriority>`, `skip_serializing_if` but no
`#[serde(default)]`). -/
structure LinuxNetwork where
  class_id : Option Nat := none
  priorities : List LinuxInterfacePriority := []

/-- Partially decoded `LinuxNetwork`. -/
structure LinuxNetworkPartial where
  class_id : Option (Option Nat) := none
  priorities : Option (List LinuxInterfacePriority) := none

/-- One step of serde's visitor loop for `LinuxNetwork`. -/
def LinuxNetwork.step (st : LinuxNetworkPartial) (kv : String × Json) :
    Except String LinuxNetworkPartial :=
  if kv.1 = "classID" then
    match st.class_id with
    | some _ => dup "classID"
    | none =>
      match decOpt (decUInt 32) kv.2 with
      | .error e => .error e
      | .ok x => .ok { st with class_id := some x }
  else if kv.1 = "priorities" then
    match st.priorities with
    | some _ => dup "priorities"
    | none =>
      match decArrOf decodeLinuxInterfacePriority kv.2 with
      | .error e => .error e
      | .ok x => .ok { st with priorities := some x }
  else .ok st

/-- serde's visitor loop for `LinuxNetwork`. -/
def LinuxNetwork.loop (st : LinuxNetworkPartial) :
    JFields → Except String LinuxNetworkPartial
  | [] => .ok st
  | kv :: rest =>
    match LinuxNetwork.step st kv with
    | .error e => .error e
    | .ok st' => LinuxNetwork.loop st' rest

/-- Deserialize a `LinuxNetwork`: `priorities` lacks `#[serde(default)]`
and is required. -/
def decodeLinuxNetwork (j : Json) : Except String LinuxNetwork :=
  match j.getObj with
  | .error e => .error e
  | .ok fs =>
    match LinuxNetwork.loop {} fs with
    | .error e => .error e
    | .ok st =>
      match req "priorities" st.priorities with
      | .error e => .error e
      | .ok priorities =>
        .ok { class_id := st.class_id.getD none, priorities }

/-- Serialize a `LinuxNetwork`. -/
def encodeLinuxNetwork (n : LinuxNetwork) : Json :=
  .obj (optField "classID" jU n.class_id
    ++ vecField "priorities" encodeLinuxInterfacePriority n.priorities)

/-! ## LinuxRdma (`src/lib.rs` lines 473-483) -/

/-- LinuxRdma: `hca_handles` (wire `hcaHandles`) and `hca_objects` (wire
`hcaObjects`), both `Option<u32>`. -/
structure LinuxRdma where
  hca_handles : Option Nat := none
  hca_objects : Option Nat := none

/-- Partially decoded `LinuxRdma`. -/
structure LinuxRdmaPartial where
  hca_handles : Option (Option Nat) := none
  hca_objects : Option (Option Nat) := none

/-- One step of serde's visitor loop for `LinuxRdma`. -/
def LinuxRdma.step (st : LinuxRdmaPartial) (kv : String × Json) :
    Except String LinuxRdmaPartial :=
  if kv.1 = "hcaHandles" then
    match st.hca_handles with
    | some _ => dup "hcaHandles"
    | none =>
      match decOpt (decUInt 32) kv.2 with
      | .error e => .error e
      | .ok x => .ok { st with hca_handles := some x }
  else if kv.1 = "hcaObjects" then
    match st.hca_objects with
    | some _ => dup "hcaObjects"
    | none =>
      match decOpt (decUInt 32) kv.2 with
      | .error e => .error e
      | .ok x => .ok { st with hca_objects := some x }
  else .ok st

/-- serde's visitor loop for `LinuxRdma`. -/
def LinuxRdma.loop (st : LinuxRdmaPartial) :
    JFields → Except String LinuxRdmaPartial
  | [] => .ok st
  | kv :: rest =>
    match LinuxRdma.step st kv with
    | .error e => .error e
    | .ok st' => LinuxRdma.loop st' rest

/-- Deserialize a `LinuxRdma`: no field is required. -/
def decodeLinuxRdma (j : Json) : Except String LinuxRdma :=
  match j.getObj with
  | .error e => .error e
  | .ok fs =>
    match LinuxRdma.loop {} fs with
    | .error e => .error e
    | .ok st =>
      .ok { hca_handles := st.hca_handles.getD none
            hca_objects := st.hca_objects.getD none }

/-- Serialize a `LinuxRdma`. -/
def encodeLinuxRdma (r : LinuxRdma) : Json :=
  .obj (optField "hcaHandles" jU r.hca_handles
    ++ optField "hcaObjects" jU r.hca_objects)

/-! ## LinuxDeviceCgroup (`src/lib.rs` lines 541-559) -/

/-- LinuxDeviceCgroup: `allow` (`bool`, required), `device_type` (wire
`type`), `major`/`minor` (`Option<i64>`), `access` (`Option<String>`). -/
structure LinuxDeviceCgroup where
  allow : Bool := false
  device_type : Option String := none
  major : Option Int := none
  minor : Option Int := none
  access : Option String := none

/-- Partially decoded `LinuxDeviceCgroup`. -/
structure LinuxDeviceCgroupPartial where
  allow : Option Bool := none
  device_type : Option (Option String) := none
  major : Option (Option Int) := none
  minor : Option (Option Int) := none
  access : Option (Option String) := none

/-- One step of serde's visitor loop for `LinuxDeviceCgroup`. -/
def LinuxDeviceCgroup.step (st : LinuxDeviceCgroupPartial)
    (kv : String × Json) : Except String LinuxDeviceCgroupPartial :=
  if kv.1 = "allow" then
    match st.allow with
    | some _ => dup "allow"
    | none =>
      match decBool kv.2 with
      | .error e => .error e
      | .ok x => .ok { st with allow := some x }
  else if kv.1 = "type" then
    match st.device_type with
    | some _ => dup "type"
    | none =>
      match decOpt decStr kv.2 with
      | .error e => .error e
      | .ok x => .ok { st with device_type := some x }
  else if kv.1 = "major" then
    match st.major with
    | some _ => dup "major"
    | none =>
      match decOpt (decSInt 64) kv.2 with
      | .error e => .error e
      | .ok x => .ok { st with major := some x }
  else if kv.1 = "minor" then
    match st.minor with
    | some _ => dup "minor"
    | none =>
      match decOpt (decSInt 64) kv.2 with
      | .error e => .error e
      | .ok x => .ok { st with minor := some x }
  else if kv.1 = "access" then
    match st.access with
    | some _ => dup "access"
    | none =>
      match decOpt decStr kv.2 with
      | .error e => .error e
      | .ok x => .ok { st with access := some x }
  else .ok st

/-- serde's visitor loop for `LinuxDeviceCgroup`. -/
def LinuxDeviceCgroup.loop (st : LinuxDeviceCgroupPartial) :
    JFields → Except String LinuxDeviceCgroupPartial
  | [] => .ok st
  | kv :: rest =>
    match LinuxDeviceCgroup.step st kv with
    | .error e => .error e
    | .ok st' => LinuxDeviceCgroup.loop st' rest

/-- Deserialize a `LinuxDeviceCgroup`. -/
def decodeLinuxDeviceCgroup (j : Json) : Except String LinuxDeviceCgroup :=
  match j.getObj with
  | .error e => .error e
  | .ok fs =>
    match LinuxDeviceCgroup.loop {} fs with
    | .error e => .error e
    | .ok st =>
      match req "allow" st.allow with
      | .error e => .error e
      | .ok allow =>
        .ok { allow
              device_type := st.device_type.getD none
              major := st.major.getD none
              minor := st.minor.getD none
              access := st.access.getD none }

/-- Serialize a `LinuxDeviceCgroup`. -/
def encodeLinuxDeviceCgroup (d : LinuxDeviceCgroup) : Json :=
  .obj ([("allow", Json.bool d.allow)]
    ++ optField "type" Json.str d.device_type
    ++ optField "major" Json.num d.major
    ++ optField "minor" Json.num d.minor
    ++ optField "access" Json.str d.access)

/-! ## LinuxBlockIO (`src/lib.rs` lines 357-394) -/

/-- LinuxBlockIO: `weight`/`leaf_weight` (wire `leafWeight`,
`Option<u16>`); five `Vec` device lists (`weight_device` as wire
`weightDevice`, and the four throttle lists as wire
`throttleReadBpsDevice`, `throttleWriteBpsDevice`,
`throttleReadIOPSDevice`, `throttleWriteIOPSDevice`), each with
`skip_serializing_if` but no `#[serde(default)]`. -/
structure LinuxBlockIO where
  weight : Option Nat := none
  leaf_weight : Option Nat := none
  weight_device : List LinuxWeightDevice := []
  throttle_read_bps_device : List LinuxThrottleDevice := []
  throttle_write_bps_device : List LinuxThrottleDevice := []
  throttle_read_iops_device : List LinuxThrottleDevice := []
  throttle_write_iops_device : List LinuxThrottleDevice := []

/-- Partially decoded `LinuxBlockIO`. -/
structure LinuxBlockIOPartial where
  weight : Option (Option Nat) := none
  leaf_weight : Option (Option Nat) := none
  weight_device : Option (List LinuxWeightDevice) := none
  throttle_read_bps_device : Option (List LinuxThrottleDevice) := none
  throttle_write_bps_device : Option (List LinuxThrottleDevice) := none
  throttle_read_iops_device : Option (List LinuxThrottleDevice) := none
  throttle_write_iops_device : Option (List LinuxThrottleDevice) := none

/-- One step of serde's visitor loop for `LinuxBlockIO`. -/
def LinuxBlockIO.step (st : LinuxBlockIOPartial) (kv : String × Json) :
    Except String LinuxBlockIOPartial :=
  if kv.1 = "weight" then
    match st.weight with
    | some _ => dup "weight"
    | none =>
      match decOpt (decUInt 16) kv.2 with
      | .error e => .error e
      | .ok x => .ok { st with weight := some x }
  else if kv.1 = "leafWeight" then
    match st.leaf_weight with
    | some _ => dup "leafWeight"
    | none =>
      match decOpt (decUInt 16) kv.2 with
      | .error e => .error e
      | .ok x => .ok { st with leaf_weight := some x }
  else if kv.1 = "weightDevice" then
    match st.weight_device with
    | some _ => dup "weightDevice"
    | none =>
      match decArrOf decodeLinuxWeightDevice kv.2 with
      | .error e => .error e
      | .ok x => .ok { st with weight_device := some x }
  else if kv.1 = "throttleReadBpsDevice" then
    match st.throttle_read_bps_device with
    | some _ => dup "throttleReadBpsDevice"
    | none =>
      match decArrOf decodeLinuxThrottleDevice kv.2 with
      | .error e => .error e
      | .ok x => .ok { st with throttle_read_bps_device := some x }
  else if kv.1 = "throttleWriteBpsDevice" then
    match st.throttle_write_bps_device with
    | some _ => dup "throttleWriteBpsDevice"
    | none =>
      match decArrOf decodeLinuxThrottleDevice kv.2 with
      | .error e => .error e
      | .ok x => .ok { st with throttle_write_bps_device := some x }
  else if kv.1 = "throttleReadIOPSDevice" then
    match st.throttle_read_iops_device with
    | some _ => dup "throttleReadIOPSDevice"
    | none =>
      match decArrOf decodeLinuxThrottleDevice kv.2 with
      | .error e => .error e
      | .ok x => .ok { st with throttle_read_iops_device := some x }
  else if kv.1 = "throttleWriteIOPSDevice" then
    match st.throttle_write_iops_device with
    | some _ => dup "throttleWriteIOPSDevice"
    | none =>
      match decArrOf decodeLinuxThrottleDevice kv.2 with
      | .error e => .error e
      | .ok x => .ok { st with throttle_write_iops_device := some x }
  else .ok st

/-- serde's visitor loop for `LinuxBlockIO`. -/
def LinuxBlockIO.loop (st : LinuxBlockIOPartial) :
    JFields → Except String LinuxBlockIOPartial
  | [] => .ok st
  | kv :: rest =>
    match LinuxBlockIO.step st kv with
    | .error e => .error e
    | .ok st' => LinuxBlockIO.loop st' rest

/-- Deserialize a `LinuxBlockIO`: the five device lists lack
`#[serde(default)]` and are required on the wire. -/
def decodeLinuxBlockIO (j : Json) : Except String LinuxBlockIO :=
  match j.getObj with
  | .error e => .error e
  | .ok fs =>
    match LinuxBlockIO.loop {} fs with
    | .error e => .error e
    | .ok st =>
      match req "weightDevice" st.weight_device with
      | .error e => .error e
      | .ok weight_device =>
        match req "throttleReadBpsDevice" st.throttle_read_bps_device with
        | .error e => .error e
        | .ok throttle_read_bps_device =>
          match req "throttleWriteBpsDevice" st.throttle_write_bps_device with
          | .error e => .error e
          | .ok throttle_write_bps_device =>
            match req "throttleReadIOPSDevice" st.throttle_read_iops_device with
            | .error e => .error e
            | .ok throttle_read_iops_device =>
              match req "throttleWriteIOPSDevice" st.throttle_write_iops_device with
              | .error e => .error e
              | .ok throttle_write_iops_device =>
                .ok { weight := st.weight.getD none
                      leaf_weight := st.leaf_weight.getD none
                      weight_device, throttle_read_bps_device
                      throttle_write_bps_device, throttle_read_iops_device
                      throttle_write_iops_device }

/-- Serialize a `LinuxBlockIO`. -/
def encodeLinuxBlockIO (b : LinuxBlockIO) : Json :=
  .obj (optField "weight" jU b.weight
    ++ optField "leafWeight" jU b.leaf_weight
    ++ vecField "weightDevice" encodeLinuxWeightDevice b.weight_device
    ++ vecField "throttleReadBpsDevice" encodeLinuxThrottleDevice
      b.throttle_read_bps_device
    ++ vecField "throttleWriteBpsDevice" encodeLinuxThrottleDevice
      b.throttle_write_bps_device
    ++ vecField "throttleReadIOPSDevice" encodeLinuxThrottleDevice
      b.throttle_read_iops_device
    ++ vecField "throttleWriteIOPSDevice" encodeLinuxThrottleDevice
      b.throttle_write_iops_device)

/-! ## LinuxResources (`src/lib.rs` lines 485-515) -/

/-- LinuxResources: `devices` (`Vec<LinuxDeviceCgroup>`,
`skip_serializing_if` but no `#[serde(default)]`), optional `memory`,
`cpu`, `pids`, `block_io` (wire `blockIO`), `network`; `hugepage_limits`
(wire `hugepageLimits`, `skip_serializing_if` and `#[serde(default)]`);
`rdma` (`HashMap<String, LinuxRdma>`, `skip_serializing_if` and
`#[serde(default)]`). -/
structure LinuxResources where
  devices : List LinuxDeviceCgroup := []
  memory : Option LinuxMemory := none
  cpu : Option LinuxCPU := none
  pids : Option LinuxPids := none
  block_io : Option LinuxBlockIO := none
  hugepage_limits : List LinuxHugepageLimit := []
  network : Option LinuxNetwork := none
  rdma : List (String × LinuxRdma) := []

/-- Partially decoded `LinuxResources`. -/
structure LinuxResourcesPartial where
  devices : Option (List LinuxDeviceCgroup) := none
  memory : Option (Option LinuxMemory) := none
  cpu : Option (Option LinuxCPU) := none
  pids : Option (Option LinuxPids) := none
  block_io : Option (Option LinuxBlockIO) := none
  hugepage_limits : Option (List LinuxHugepageLimit) := none
  network : Option (Option LinuxNetwork) := none
  rdma : Option (List (String × LinuxRdma)) := none

/-- One step of serde's visitor loop for `LinuxResources`. -/
def LinuxResources.step (st : LinuxResourcesPartial) (kv : String × Json) :
    Except String LinuxResourcesPartial :=
  if kv.1 = "devices" then
    match st.devices with
    | some _ => dup "devices"
    | none =>
      match decArrOf decodeLinuxDeviceCgroup kv.2 with
      | .error e => .error e
      | .ok x => .ok { st with devices := some x }
  else if kv.1 = "memory" then
    match st.memory with
    | some _ => dup "memory"
    | none =>
      match decOpt decodeLinuxMemory kv.2 with
      | .error e => .error e
      | .ok x => .ok { st with memory := some x }
  else if kv.1 = "cpu" then
    match st.cpu with
    | some _ => dup "cpu"
    | none =>
      match decOpt decodeLinuxCPU kv.2 with
      | .error e => .error e
      | .ok x => .ok { st with cpu := some x }
  else if kv.1 = "pids" then
    match st.pids with
    | some _ => dup "pids"
    | none =>
      match decOpt decodeLinuxPids kv.2 with
      | .error e => .error e
      | .ok x => .ok { st with pids := some x }
  else if kv.1 = "blockIO" then
    match st.block_io with
    | some _ => dup "blockIO"
    | none =>
      match decOpt decodeLinuxBlockIO kv.2 with
      | .error e => .error e
      | .ok x => .ok { st with block_io := some x }
  else if kv.1 = "hugepageLimits" then
    match st.hugepage_limits with
    | some _ => dup "hugepageLimits"
    | none =>
      match decArrOf decodeLinuxHugepageLimit kv.2 with
      | .error e => .error e
      | .ok x => .ok { st with hugepage_limits := some x }
  else if kv.1 = "network" then
    match st.network with
    | some _ => dup "network"
    | none =>
      match decOpt decodeLinuxNetwork kv.2 with
      | .error e => .error e
      | .ok x => .ok { st with network := some x }
  else if kv.1 = "rdma" then
    match st.rdma with
    | some _ => dup "rdma"
    | none =>
      match decMapOf decodeLinuxRdma kv.2 with
      | .error e => .error e
      | .ok x => .ok { st with rdma := some x }
  else .ok st

/-- serde's visitor loop for `LinuxResources`. -/
def LinuxResources.loop (st : LinuxResourcesPartial) :
    JFields → Except String LinuxResourcesPartial
  | [] => .ok st
  | kv :: rest =>
    match LinuxResources.step st kv with
    | .error e => .error e
    | .ok st' => LinuxResources.loop st' rest

/-- Deserialize a `LinuxResources`: `devices` lacks `#[serde(default)]`
and is required; `hugepageLimits` and `rdma` default to empty. -/
def decodeLinuxResources (j : Json) : Except String LinuxResources :=
  match j.getObj with
  | .error e => .error e
  | .ok fs =>
    match LinuxResources.loop {} fs with
    | .error e => .error e
    | .ok st =>
      match req "devices" st.devices with
      | .error e => .error e
      | .ok devices =>
        .ok { devices
              memory := st.memory.getD none
              cpu := st.cpu.getD none
              pids := st.pids.getD none
              block_io := st.block_io.getD none
              hugepage_limits := st.hugepage_limits.getD []
              network := st.network.getD none
              rdma := st.rdma.getD [] }

/-- Serialize a `LinuxResources`. -/
def encodeLinuxResources (r : LinuxResources) : Json :=
  .obj (vecField "devices" encodeLinuxDeviceCgroup r.devices
    ++ optField "memory" encodeLinuxMemory r.memory
    ++ optField "cpu" encodeLinuxCPU r.cpu
    ++ optField "pids" encodeLinuxPids r.pids
    ++ optField "blockIO" encodeLinuxBlockIO r.block_io
    ++ vecField "hugepageLimits" encodeLinuxHugepageLimit r.hugepage_limits
    ++ optField "network" encodeLinuxNetwork r.network
    ++ mapField "rdma" encodeLinuxRdma r.rdma)

/-! ## LinuxPersonality (`src/lib.rs` lines 561-570) -/

/-- LinuxPersonality: `domain` (`String`, required), `flags`
(`Vec<String>`, `skip_serializing_if` but no `#[serde(default)]`). -/
structure LinuxPersonality where
  domain : String := ""
  flags : List String := []

/-- Partially decoded `LinuxPersonality`. -/
structure LinuxPersonalityPartial where
  domain : Option String := none
  flags : Option (List String) := none

/-- One step of serde's visitor loop for `LinuxPersonality`. -/
def LinuxPersonality.step (st : LinuxPersonalityPartial)
    (kv : String × Json) : Except String LinuxPersonalityPartial :=
  if kv.1 = "domain" then
    match st.domain with
    | some _ => dup "domain"
    | none =>
      match decStr kv.2 with
      | .error e => .error e
      | .ok x => .ok { st with domain := some x }
  else if kv.1 = "flags" then
    match st.flags with
    | some _ => dup "flags"
    | none =>
      match decArrOf decStr kv.2 with
      | .error e => .error e
      | .ok x => .ok { st with flags := some x }
  else .ok st

/-- serde's visitor loop for `LinuxPersonality`. -/
def LinuxPersonality.loop (st : LinuxPersonalityPartial) :
    JFields → Except String LinuxPersonalityPartial
  | [] => .ok st
  | kv :: rest =>
    match LinuxPersonality.step st kv with
    | .error e => .error e
    | .ok st' => LinuxPersonality.loop st' rest

/-- Deserialize a `LinuxPersonality`: both fields are required. -/
def decodeLinuxPersonality (j : Json) : Except String LinuxPersonality :=
  match j.getObj with
  | .error e => .error e
  | .ok fs =>
    match LinuxPersonality.loop {} fs with
    | .error e => .error e
    | .ok st =>
      match req "domain" st.domain with
      | .error e => .error e
      | .ok domain =>
        match req "flags" st.flags with
        | .error e => .error e
        | .ok flags => .ok { domain, flags }

/-- Serialize a `LinuxPersonality`. -/
def encodeLinuxPersonality (p : LinuxPersonality) : Json :=
  .obj ([("domain", Json.str p.domain)]
    ++ vecField "flags" Json.str p.flags)

/-! ## LinuxSeccompArg (`src/lib.rs` lines 586-595) -/

/-- LinuxSeccompArg: `index`/`value` (`u64`, required), `value_two` (wire
`valueTwo`, `Option<u64>`), `op` (`String`, required). -/
structure LinuxSeccompArg where
  index : Nat := 0
  value : Nat := 0
  value_two : Option Nat := none
  op : String := ""

/-- Partially decoded `LinuxSeccompArg`. -/
structure LinuxSeccompArgPartial where
  index : Option Nat := none
  value : Option Nat := none
  value_two : Option (Option Nat) := none
  op : Option String := none

/-- One step of serde's visitor loop for `LinuxSeccompArg`. -/
def LinuxSeccompArg.step (st : LinuxSeccompArgPartial)
    (kv : String × Json) : Except String LinuxSeccompArgPartial :=
  if kv.1 = "index" then
    match st.index with
    | some _ => dup "index"
    | none =>
      match decUInt 64 kv.2 with
      | .error e => .error e
      | .ok x => .ok { st with index := some x }
  else if kv.1 = "value" then
    match st.value with
    | some _ => dup "value"
    | none =>
      match decUInt 64 kv.2 with
      | .error e => .error e
      | .ok x => .ok { st with value := some x }
  else if kv.1 = "valueTwo" then
    match st.value_two with
    | some _ => dup "valueTwo"
    | none =>
      match decOpt (decUInt 64) kv.2 with
      | .error e => .error e
      | .ok x => .ok { st with value_two := some x }
  else if kv.1 = "op" then
    match st.op with
    | some _ => dup "op"
    | none =>
      match decStr kv.2 with
      | .error e => .error e
      | .ok x => .ok { st with op := some x }
  else .ok st

/-- serde's visitor loop for `LinuxSeccompArg`. -/
def LinuxSeccompArg.loop (st : LinuxSeccompArgPartial) :
    JFields → Except String LinuxSeccompArgPartial
  | [] => .ok st
  | kv :: rest =>
    match LinuxSeccompArg.step st kv with
    | .error e => .error e
    | .ok st' => LinuxSeccompArg.loop st' rest

/-- Deserialize a `LinuxSeccompArg`. -/
def decodeLinuxSeccompArg (j : Json) : Except String LinuxSeccompArg :=
  match j.getObj with
  | .error e => .error e
  | .ok fs =>
    match LinuxSeccompArg.loop {} fs with
    | .error e => .error e
    | .ok st =>
      match req "index" st.index with
      | .error e => .error e
      | .ok index =>
        match req "value" st.value with
        | .error e => .error e
        | .ok value =>
          match req "op" st.op with
          | .error e => .error e
          | .ok op =>
            .ok { index, value, op, value_two := st.value_two.getD none }

/-- Serialize a `LinuxSeccompArg`. -/
def encodeLinuxSeccompArg (a : LinuxSeccompArg) : Json :=
  .obj ([("index", jU a.index), ("value", jU a.value)]
    ++ optField "valueTwo" jU a.value_two
    ++ [("op", Json.str a.op)])

/-! ## LinuxSyscall (`src/lib.rs` lines 597-605) -/

/-- LinuxSyscall: `names` (`Vec<String>`, no serde attribute at all, so
it is always emitted and required), `action` (`String`, required),
`args` (`Vec<String>`, `skip_serializing_if` but no `#[serde(default)]`). -/
structure LinuxSyscall where
  names : List String := []
  action : String := ""
  args : List String := []

/-- Partially decoded `LinuxSyscall`. -/
structure LinuxSyscallPartial where
  names : Option (List String) := none
  action : Option String := none
  args : Option (List String) := none

/-- One step of serde's visitor loop for `LinuxSyscall`. -/
def LinuxSyscall.step (st : LinuxSyscallPartial) (kv : String × Json) :
    Except String LinuxSyscallPartial :=
  if kv.1 = "names" then
    match st.names with
    | some _ => dup "names"
    | none =>
      match decArrOf decStr kv.2 with
      | .error e => .error e
      | .ok x => .ok { st with names := some x }
  else if kv.1 = "action" then
    match st.action with
    | some _ => dup "action"
    | none =>
      match decStr kv.2 with
      | .error e => .error e
      | .ok x => .ok { st with action := some x }
  else if kv.1 = "args" then
    match st.args with
    | some _ => dup "args"
    | none =>
      match decArrOf decStr kv.2 with
      | .error e => .error e
      | .ok x => .ok { st with args := some x }
  else .ok st

/-- serde's visitor loop for `LinuxSyscall`. -/
def LinuxSyscall.loop (st : LinuxSyscallPartial) :
    JFields → Except String LinuxSyscallPartial
  | [] => .ok st
  | kv :: rest =>
    match LinuxSyscall.step st kv with
    | .error e => .error e
    | .ok st' => LinuxSyscall.loop st' rest

/-- Deserialize a `LinuxSyscall`: all three fields are required. -/
def decodeLinuxSyscall (j : Json) : Except String LinuxSyscall :=
  match j.getObj with
  | .error e => .error e
  | .ok fs =>
    match LinuxSyscall.loop {} fs with
    | .error e => .error e
    | .ok st =>
      match req "names" st.names with
      | .error e => .error e
      | .ok names =>
        match req "action" st.action with
        | .error e => .error e
        | .ok action =>
          match req "args" st.args with
          | .error e => .error e
          | .ok args => .ok { names, action, args }

/-- Serialize a `LinuxSyscall`: `names` carries no `skip_serializing_if`
and is emitted even when empty. -/
def encodeLinuxSyscall (s : LinuxSyscall) : Json :=
  .obj ([("names", jStrArr s.names), ("action", Json.str s.action)]
    ++ vecField "args" Json.str s.args)

/-! ## LinuxSeccomp (`src/lib.rs` lines 572-584) -/

/-- LinuxSeccomp: `default_action` (wire `defaultAction`, required);
`architectures`/`syscalls` (`Vec`, `skip_serializing_if` but no
`#[serde(default)]`); `flags` (`Vec<String>`, `skip_serializing_if` and
`#[serde(default)]`). -/
structure LinuxSeccomp where
  default_action : String := ""
  architectures : List String := []
  flags : List String := []
  syscalls : List LinuxSyscall := []

/-- Partially decoded `LinuxSeccomp`. -/
structure LinuxSeccompPartial where
  default_action : Option String := none
  architectures : Option (List String) := none
  flags : Option (List String) := none
  syscalls : Option (List LinuxSyscall) := none

/-- One step of serde's visitor loop for `LinuxSeccomp`. -/
def LinuxSeccomp.step (st : LinuxSeccompPartial) (kv : String × Json) :
    Except String LinuxSeccompPartial :=
  if kv.1 = "defaultAction" then
    match st.default_action with
    | some _ => dup "defaultAction"
    | none =>
      match decStr kv.2 with
      | .error e => .error e
      | .ok x => .ok { st with default_action := some x }
  else if kv.1 = "architectures" then
    match st.architectures with
    | some _ => dup "architectures"
    | none =>
      match decArrOf decStr kv.2 with
      | .error e => .error e
      | .ok x => .ok { st with architectures := some x }
  else if kv.1 = "flags" then
    match st.flags with
    | some _ => dup "flags"
    | none =>
      match decArrOf decStr kv.2 with
      | .error e => .error e
      | .ok x => .ok { st with flags := some x }
  else if kv.1 = "syscalls" then
    match st.syscalls with
    | some _ => dup "syscalls"
    | none =>
      match decArrOf decodeLinuxSyscall kv.2 with
      | .error e => .error e
      | .ok x => .ok { st with syscalls := some x }
  else .ok st

/-- serde's visitor loop for `LinuxSeccomp`. -/
def LinuxSeccomp.loop (st : LinuxSeccompPartial) :
    JFields → Except String LinuxSeccompPartial
  | [] => .ok st
  | kv :: rest =>
    match LinuxSeccomp.step st kv with
    | .error e => .error e
    | .ok st' => LinuxSeccomp.loop st' rest

/-- Deserialize a `LinuxSeccomp`: `defaultAction`, `architectures` and
`syscalls` are required; `flags` defaults to `[]`. -/
def decodeLinuxSeccomp (j : Json) : Except String LinuxSeccomp :=
  match j.getObj with
  | .error e => .error e
  | .ok fs =>
    match LinuxSeccomp.loop {} fs with
    | .error e => .error e
    | .ok st =>
      match req "defaultAction" st.default_action with
      | .error e => .error e
      | .ok default_action =>
        match req "architectures" st.architectures with
        | .error e => .error e
        | .ok architectures =>
          match req "syscalls" st.syscalls with
          | .error e => .error e
          | .ok syscalls =>
            .ok { default_action, architectures, syscalls
                  flags := st.flags.getD [] }

/-- Serialize a `LinuxSeccomp`. -/
def encodeLinuxSeccomp (s : LinuxSeccomp) : Json :=
  .obj ([("defaultAction", Json.str s.default_action)]
    ++ vecField "architectures" Json.str s.architectures
    ++ vecField "flags" Json.str s.flags
    ++ vecField "syscalls" encodeLinuxSyscall s.syscalls)

/-! ## LinuxIntelRdt (`src/lib.rs` lines 607-625) -/

/-- LinuxIntelRdt: `clos_id` (wire `closID`), `l3_cache_schema` (wire
`l3CacheSchema`), `mem_bw_schema` (wire `memBwSchema`), all
`Option<String>`. -/
structure LinuxIntelRdt where
  clos_id : Option String := none
  l3_cache_schema : Option String := none
  mem_bw_schema : Option String := none

/-- Partially decoded `LinuxIntelRdt`. -/
structure LinuxIntelRdtPartial where
  clos_id : Option (Option String) := none
  l3_cache_schema : Option (Option String) := none
  mem_bw_schema : Option (Option String) := none

/-- One step of serde's visitor loop for `LinuxIntelRdt`. -/
def LinuxIntelRdt.step (st : LinuxIntelRdtPartial) (kv : String × Json) :
    Except String LinuxIntelRdtPartial :=
  if kv.1 = "closID" then
    match st.clos_id with
    | some _ => dup "closID"
    | none =>
      match decOpt decStr kv.2 with
      | .error e => .error e
      | .ok x => .ok { st with clos_id := some x }
  else if kv.1 = "l3CacheSchema" then
    match st.l3_cache_schema with
    | some _ => dup "l3CacheSchema"
    | none =>
      match decOpt decStr kv.2 with
      | .error e => .error e
      | .ok x => .ok { st with l3_cache_schema := some x }
  else if kv.1 = "memBwSchema" then
    match st.mem_bw_schema with
    | some _ => dup "memBwSchema"
    | none =>
      match decOpt decStr kv.2 with
      | .error e => .error e
      | .ok x => .ok { st with mem_bw_schema := some x }
  else .ok st

/-- serde's visitor loop for `LinuxIntelRdt`. -/
def LinuxIntelRdt.loop (st : LinuxIntelRdtPartial) :
    JFields → Except String LinuxIntelRdtPartial
  | [] => .ok st
  | kv :: rest =>
    match LinuxIntelRdt.step st kv with
    | .error e => .error e
    | .ok st' => LinuxIntelRdt.loop st' rest

/-- Deserialize a `LinuxIntelRdt`: no field is required. -/
def decodeLinuxIntelRdt (j : Json) : Except String LinuxIntelRdt :=
  match j.getObj with
  | .error e => .error e
  | .ok fs =>
    match LinuxIntelRdt.loop {} fs with
    | .error e => .error e
    | .ok st =>
      .ok { clos_id := st.clos_id.getD none
            l3_cache_schema := st.l3_cache_schema.getD none
            mem_bw_schema := st.mem_bw_schema.getD none }

/-- Serialize a `LinuxIntelRdt`. -/
def encodeLinuxIntelRdt (r : LinuxIntelRdt) : Json :=
  .obj (optField "closID" Json.str r.clos_id
    ++ optField "l3CacheSchema" Json.str r.l3_cache_schema
    ++ optField "memBwSchema" Json.str r.mem_bw_schema)

/-! ## Linux (`src/lib.rs` lines 215-265) -/

/-- Linux: `uid_mappings`/`gid_mappings` (wire `uidMappings`/
`gidMappings`, `Vec<LinuxIDMapping>`, `skip_serializing_if` and
`#[serde(default)]`), `sysctl` (`HashMap<String, String>`,
`skip_serializing_if` and `#[serde(default)]`), `resources`
(`Option<LinuxResources>`), `cgroups_path` (wire `cgroupsPath`,
`Option<String>`), `namespaces` (`Vec<LinuxNamespace>`) and `devices`
(`Vec<LinuxDevice>`) with `skip_serializing_if` but no
`#[serde(default)]`, `seccomp` (`Option<LinuxSeccomp>`),
`rootfs_propagation` (wire `rootfsPropagation`, `Option<String>`),
`masked_paths`/`readonly_paths` (wire `maskedPaths`/`readonlyPaths`,
`Vec<String>`, `skip_serializing_if` but no `#[serde(default)]`),
`mount_label` (wire `mountLabel`, `Option<String>`), `intel_rdt` (wire
`intelRdt`, `Option<LinuxIntelRdt>`), `personality`
(`Option<LinuxPersonality>`). -/
structure Linux where
  uid_mappings : List LinuxIDMapping := []
  gid_mappings : List LinuxIDMapping := []
  sysctl : List (String × String) := []
  resources : Option LinuxResources := none
  cgroups_path : Option String := none
  namespaces : List LinuxNamespace := []
  devices : List LinuxDevice := []
  seccomp : Option LinuxSeccomp := none
  rootfs_propagation : Option String := none
  masked_paths : List String := []
  readonly_paths : List String := []
  mount_label : Option String := none
  intel_rdt : Option LinuxIntelRdt := none
  personality : Option LinuxPersonality := none

/-- Partially decoded `Linux`. -/
structure LinuxPartial where
  uid_mappings : Option (List LinuxIDMapping) := none
  gid_mappings : Option (List LinuxIDMapping) := none
  sysctl : Option (List (String × String)) := none
  resources : Option (Option LinuxResources) := none
  cgroups_path : Option (Option String) := none
  namespaces : Option (List LinuxNamespace) := none
  devices : Option (List LinuxDevice) := none
  seccomp : Option (Option LinuxSeccomp) := none
  rootfs_propagation : Option (Option String) := none
  masked_paths : Option (List String) := none
  readonly_paths : Option (List String) := none
  mount_label : Option (Option String) := none
  intel_rdt : Option (Option LinuxIntelRdt) := none
  personality : Option (Option LinuxPersonality) := none

/-- One step of serde's visitor loop for `Linux`. -/
def Linux.step (st : LinuxPartial) (kv : String × Json) :
    Except String LinuxPartial :=
  if kv.1 = "uidMappings" then
    match st.uid_mappings with
    | some _ => dup "uidMappings"
    | none =>
      match decArrOf decodeLinuxIDMapping kv.2 with
      | .error e => .error e
      | .ok x => .ok { st with uid_mappings := some x }
  else if kv.1 = "gidMappings" then
    match st.gid_mappings with
    | some _ => dup "gidMappings"
    | none =>
      match decArrOf decodeLinuxIDMapping kv.2 with
      | .error e => .error e
      | .ok x => .ok { st with gid_mappings := some x }
  else if kv.1 = "sysctl" then
    match st.sysctl with
    | some _ => dup "sysctl"
    | none =>
      match decMapOf decStr kv.2 with
      | .error e => .error e
      | .ok x => .ok { st with sysctl := some x }
  else if kv.1 = "resources" then
    match st.resources with
    | some _ => dup "resources"
    | none =>
      match decOpt decodeLinuxResources kv.2 with
      | .error e => .error e
      | .ok x => .ok { st with resources := some x }
  else if kv.1 = "cgroupsPath" then
    match st.cgroups_path with
    | some _ => dup "cgroupsPath"
    | none =>
      match decOpt decStr kv.2 with
      | .error e => .error e
      | .ok x => .ok { st with cgroups_path := some x }
  else if kv.1 = "namespaces" then
    match st.namespaces with
    | some _ => dup "namespaces"
    | none =>
      match decArrOf decodeLinuxNamespace kv.2 with
      | .error e => .error e
      | .ok x => .ok { st with namespaces := some x }
  else if kv.1 = "devices" then
    match st.devices with
    | some _ => dup "devices"
    | none =>
      match decArrOf decodeLinuxDevice kv.2 with
      | .error e => .error e
      | .ok x => .ok { st with devices := some x }
  else if kv.1 = "seccomp" then
    match st.seccomp with
    | some _ => dup "seccomp"
    | none =>
      match decOpt decodeLinuxSeccomp kv.2 with
      | .error e => .error e
      | .ok x => .ok { st with seccomp := some x }
  else if kv.1 = "rootfsPropagation" then
    match st.rootfs_propagation with
    | some _ => dup "rootfsPropagation"
    | none =>
      match decOpt decStr kv.2 with
      | .error e => .error e
      | .ok x => .ok { st with rootfs_propagation := some x }
  else if kv.1 = "maskedPaths" then
    match st.masked_paths with
    | some _ => dup "maskedPaths"
    | none =>
      match decArrOf decStr kv.2 with
      | .error e => .error e
      | .ok x => .ok { st with masked_paths := some x }
  else if kv.1 = "readonlyPaths" then
    match st.readonly_paths with
    | some _ => dup "readonlyPaths"
    | none =>
      match decArrOf decStr kv.2 with
      | .error e => .error e
      | .ok x => .ok { st with readonly_paths := some x }
  else if kv.1 = "mountLabel" then
    match st.mount_label with
    | some _ => dup "mountLabel"
    | none =>
      match decOpt decStr kv.2 with
      | .error e => .error e
      | .ok x => .ok { st with mount_label := some x }
  else if kv.1 = "intelRdt" then
    match st.intel_rdt with
    | some _ => dup "intelRdt"
    | none =>
      match decOpt decodeLinuxIntelRdt kv.2 with
      | .error e => .error e
      | .ok x => .ok { st with intel_rdt := some x }
  else if kv.1 = "personality" then
    match st.personality with
    | some _ => dup "personality"
    | none =>
      match decOpt decodeLinuxPersonality kv.2 with
      | .error e => .error e
      | .ok x => .ok { st with personality := some x }
  else .ok st

/-- serde's visitor loop for `Linux`. -/
def Linux.loop (st : LinuxPartial) : JFields → Except String LinuxPartial
  | [] => .ok st
  | kv :: rest =>
    match Linux.step st kv with
    | .error e => .error e
    | .ok st' => Linux.loop st' rest

/-- Deserialize a `Linux`: `namespaces`, `devices`, `maskedPaths` and
`readonlyPaths` lack `#[serde(default)]` and are required; the mapping
and mapping-list fields with `#[serde(default)]` fall back to empty, the
optional fields to `none`. -/
def decodeLinux (j : Json) : Except String Linux :=
  match j.getObj with
  | .error e => .error e
  | .ok fs =>
    match Linux.loop {} fs with
    | .error e => .error e
    | .ok st =>
      match req "namespaces" st.namespaces with
      | .error e => .error e
      | .ok namespaces =>
        match req "devices" st.devices with
        | .error e => .error e
        | .ok devices =>
          match req "maskedPaths" st.masked_paths with
          | .error e => .error e
          | .ok masked_paths =>
            match req "readonlyPaths" st.readonly_paths with
            | .error e => .error e
            | .ok readonly_paths =>
              .ok { namespaces, devices, masked_paths, readonly_paths
                    uid_mappings := st.uid_mappings.getD []
                    gid_mappings := st.gid_mappings.getD []
                    sysctl := st.sysctl.getD []
                    resources := st.resources.getD none
                    cgroups_path := st.cgroups_path.getD none
                    seccomp := st.seccomp.getD none
                    rootfs_propagation := st.rootfs_propagation.getD none
                    mount_label := st.mount_label.getD none
                    intel_rdt := st.intel_rdt.getD none
                    personality := st.personality.getD none }

/-- Serialize a `Linux`. -/
def encodeLinux (l : Linux) : Json :=
  .obj (vecField "uidMappings" encodeLinuxIDMapping l.uid_mappings
    ++ vecField "gidMappings" encodeLinuxIDMapping l.gid_mappings
    ++ mapField "sysctl" Json.str l.sysctl
    ++ optField "resources" encodeLinuxResources l.resources
    ++ optField "cgroupsPath" Json.str l.cgroups_path
    ++ vecField "namespaces" encodeLinuxNamespace l.namespaces
    ++ vecField "devices" encodeLinuxDevice l.devices
    ++ optField "seccomp" encodeLinuxSeccomp l.seccomp
    ++ optField "rootfsPropagation" Json.str l.rootfs_propagation
    ++ vecField "maskedPaths" Json.str l.masked_paths
    ++ vecField "readonlyPaths" Json.str l.readonly_paths
    ++ optField "mountLabel" Json.str l.mount_label
    ++ optField "intelRdt" encodeLinuxIntelRdt l.intel_rdt
    ++ optField "personality" encodeLinuxPersonality l.personality)

/-! ## Spec (`src/lib.rs` lines 24-52) -/

/-- Spec: `version` (wire `ociVersion`, `String`, required, always
emitted), `process`/`root`/`hostname`/`hooks`/`linux` (optional,
`skip_serializing_if = "Option::is_none"`), `mounts` (`Vec<Mount>`,
`skip_serializing_if` but no `#[serde(default)]`), `annotations`
(`HashMap<String, String>`, `skip_serializing_if` and
`#[serde(default)]`). -/
structure Spec where
  version : String := ""
  process : Option Process := none
  root : Option Root := none
  hostname : Option String := none
  mounts : List Mount := []
  hooks : Option Hooks := none
  annotations : List (String × String) := []
  linux : Option Linux := none

/-- Partially decoded `Spec`. -/
structure SpecPartial where
  version : Option String := none
  process : Option (Option Process) := none
  root : Option (Option Root) := none
  hostname : Option (Option String) := none
  mounts : Option (List Mount) := none
  hooks : Option (Option Hooks) := none
  annotations : Option (List (String × String)) := none
  linux : Option (Option Linux) := none

/-- One step of serde's visitor loop for `Spec`. -/
def Spec.step (st : SpecPartial) (kv : String × Json) :
    Except String SpecPartial :=
  if kv.1 = "ociVersion" then
    match st.version with
    | some _ => dup "ociVersion"
    | none =>
      match decStr kv.2 with
      | .error e => .error e
      | .ok x => .ok { st with version := some x }
  else if kv.1 = "process" then
    match st.process with
    | some _ => dup "process"
    | none =>
      match decOpt decodeProcess kv.2 with
      | .error e => .error e
      | .ok x => .ok { st with process := some x }
  else if kv.1 = "root" then
    match st.root with
    | some _ => dup "root"
    | none =>
      match decOpt decodeRoot kv.2 with
      | .error e => .error e
      | .ok x => .ok { st with root := some x }
  else if kv.1 = "hostname" then
    match st.hostname with
    | some _ => dup "hostname"
    | none =>
      match decOpt decStr kv.2 with
      | .error e => .error e
      | .ok x => .ok { st with hostname := some x }
  else if kv.1 = "mounts" then
    match st.mounts with
    | some _ => dup "mounts"
    | none =>
      match decArrOf decodeMount kv.2 with
      | .error e => .error e
      | .ok x => .ok { st with mounts := some x }
  else if kv.1 = "hooks" then
    match st.hooks with
    | some _ => dup "hooks"
    | none =>
      match decOpt decodeHooks kv.2 with
      | .error e => .error e
      | .ok x => .ok { st with hooks := some x }
  else if kv.1 = "annotations" then
    match st.annotations with
    | some _ => dup "annotations"
    | none =>
      match decMapOf decStr kv.2 with
      | .error e => .error e
      | .ok x => .ok { st with annotations := some x }
  else if kv.1 = "linux" then
    match st.linux with
    | some _ => dup "linux"
    | none =>
      match decOpt decodeLinux kv.2 with
      | .error e => .error e
      | .ok x => .ok { st with linux := some x }
  else .ok st

/-- serde's visitor loop for `Spec`. -/
def Spec.loop (st : SpecPartial) : JFields → Except String SpecPartial
  | [] => .ok st
  | kv :: rest =>
    match Spec.step st kv with
    | .error e => .error e
    | .ok st' => Spec.loop st' rest

/-- Deserialize a `Spec`: `ociVersion` and `mounts` are required (the
latter because it lacks `#[serde(default)]`); the optional fields decode
to `none` and `annotations` to empty when absent. -/
def decodeSpec (j : Json) : Except String Spec :=
  match j.getObj with
  | .error e => .error e
  | .ok fs =>
    match Spec.loop {} fs with
    | .error e => .error e
    | .ok st =>
      match req "ociVersion" st.version with
      | .error e => .error e
      | .ok version =>
        match req "mounts" st.mounts with
        | .error e => .error e
        | .ok mounts =>
          .ok { version, mounts
                process := st.process.getD none
                root := st.root.getD none
                hostname := st.hostname.getD none
                hooks := st.hooks.getD none
                annotations := st.annotations.getD []
                linux := st.linux.getD none }

/-- Serialize a `Spec`. -/
def encodeSpec (s : Spec) : Json :=
  .obj ([("ociVersion", Json.str s.version)]
    ++ optField "process" encodeProcess s.process
    ++ optField "root" encodeRoot s.root
    ++ optField "hostname" Json.str s.hostname
    ++ vecField "mounts" encodeMount s.mounts
    ++ optField "hooks" encodeHooks s.hooks
    ++ mapField "annotations" Json.str s.annotations
    ++ optField "linux" encodeLinux s.linux)

/-! ## Builders

`#[derive(Builder)]` with `#[builder(default, setter(into))]` generates,
for a struct `X`, an accumulator struct `XBuilder` holding one
`Option`-wrapped slot per field (all initially `None`), one setter per
field that stores `Some(value)` into its own slot only, and a
`build(&self) -> Result<X, _>` that reads every slot, substituting the
field's default for an unset slot; with `#[builder(default)]` it can
never return `Err`.  We embed the builders for the record types the
claims exercise (`Spec`, `Mount`, `LinuxResources`), with the fields of
each builder indexed by an enumeration so that "any two distinct fields"
is quantifiable. -/

/-- The builder accumulator for `Spec`. -/
structure SpecBuilder where
  version : Option String := none
  process : Option (Option Process) := none
  root : Option (Option Root) := none
  hostname : Option (Option String) := none
  mounts : Option (List Mount) := none
  hooks : Option (Option Hooks) := none
  annotations : Option (List (String × String)) := none
  linux : Option (Option Linux) := none

/-- Finalisation of a `SpecBuilder`: every unset slot falls back to the
field's default; the result is always `ok`. -/
def SpecBuilder.build (b : SpecBuilder) : Except String Spec :=
  .ok { version := b.version.getD ""
        process := b.process.getD none
        root := b.root.getD none
        hostname := b.hostname.getD none
        mounts := b.mounts.getD []
        hooks := b.hooks.getD none
        annotations := b.annotations.getD []
        linux := b.linux.getD none }

/-- The fields of `Spec`, as an index type for the builder setters. -/
inductive SpecField where
  | version | process | root | hostname | mounts | hooks | annotations
  | linux
deriving DecidableEq

/-- The value type each `Spec` field stores. -/
def SpecField.ty : SpecField → Type
  | .version => String
  | .process => Option Process
  | .root => Option Root
  | .hostname => Option String
  | .mounts => List Mount
  | .hooks => Option Hooks
  | .annotations => List (String × String)
  | .linux => Option Linux

/-- The generated setter for a `Spec` field: it overwrites its own slot
of the accumulator and nothing else. -/
def SpecBuilder.set (b : SpecBuilder) :
    (f : SpecField) → SpecField.ty f → SpecBuilder
  | .version, x => { b with version := some x }
  | .process, x => { b with process := some x }
  | .root, x => { b with root := some x }
  | .hostname, x => { b with hostname := some x }
  | .mounts, x => { b with mounts := some x }
  | .hooks, x => { b with hooks := some x }
  | .annotations, x => { b with annotations := some x }
  | .linux, x => { b with linux := some x }

/-- The builder accumulator for `Mount`. -/
structure MountBuilder where
  destination : Option String := none
  mount_type : Option (Option String) := none
  source : Option (Option String) := none
  options : Option (List String) := none

/-- Finalisation of a `MountBuilder`. -/
def MountBuilder.build (b : MountBuilder) : Except String Mount :=
  .ok { destination := b.destination.getD ""
        mount_type := b.mount_type.getD none
        source := b.source.getD none
        options := b.options.getD [] }

/-- The fields of `Mount`, as an index type for the builder setters. -/
inductive MountField where
  | destination | mount_type | source | options
deriving DecidableEq

/-- The value type each `Mount` field stores. -/
def MountField.ty : MountField → Type
  | .destination => String
  | .mount_type => Option String
  | .source => Option String
  | .options => List String

/-- The generated setter for a `Mount` field. -/
def MountBuilder.set (b : MountBuilder) :
    (f : MountField) → MountField.ty f → MountBuilder
  | .destination, x => { b with destination := some x }
  | .mount_type, x => { b with mount_type := some x }
  | .source, x => { b with source := some x }
  | .options, x => { b with options := some x }

/-- The builder accumulator for `LinuxResources`. -/
structure LinuxResourcesBuilder where
  devices : Option (List LinuxDeviceCgroup) := none
  memory : Option (Option LinuxMemory) := none
  cpu : Option (Option LinuxCPU) := none
  pids : Option (Option LinuxPids) := none
  block_io : Option (Option LinuxBlockIO) := none
  hugepage_limits : Option (List LinuxHugepageLimit) := none
  network : Option (Option LinuxNetwork) := none
  rdma : Option (List (String × LinuxRdma)) := none

/-- Finalisation of a `LinuxResourcesBuilder`. -/
def LinuxResourcesBuilder.build (b : LinuxResourcesBuilder) :
    Except String LinuxResources :=
  .ok { devices := b.devices.getD []
        memory := b.memory.getD none
        cpu := b.cpu.getD none
        pids := b.pids.getD none
        block_io := b.block_io.getD none
        hugepage_limits := b.hugepage_limits.getD []
        network := b.network.getD none
        rdma := b.rdma.getD [] }

/-! ## Supporting lemmas about the `Spec` visitor loop -/

/-- The wire keys recognised by `Spec`'s deserializer. -/
def specWireKeys : List String :=
  ["ociVersion", "process", "root", "hostname", "mounts", "hooks",
   "annotations", "linux"]

/-- A step of the `Spec` visitor on an unrecognised key leaves the
partial state untouched. -/
theorem Spec.step_unknown (st : SpecPartial) (k : String) (v : Json)
    (h : k ∉ specWireKeys) : Spec.step st (k, v) = .ok st := by
  simp only [specWireKeys, List.mem_cons, List.not_mem_nil, or_false,
    not_or] at h
  obtain ⟨h1, h2, h3, h4, h5, h6, h7, h8⟩ := h
  simp [Spec.step, h1, h2, h3, h4, h5, h6, h7, h8]

/-- The `Spec` visitor loop ignores an unrecognised entry wherever it
occurs in the object. -/
theorem Spec.loop_skip_unknown (k : String) (v : Json)
    (h : k ∉ specWireKeys) (l₁ l₂ : JFields) (st : SpecPartial) :
    Spec.loop st (l₁ ++ (k, v) :: l₂) = Spec.loop st (l₁ ++ l₂) := by
  induction l₁ generalizing st with
  | nil => simp [Spec.loop, Spec.step_unknown st k v h]
  | cons kv rest ih =>
    simp only [List.cons_append, Spec.loop]
    cases Spec.step st kv with
    | error e => rfl
    | ok st' => exact ih st'

/-- A step of the `Spec` visitor on a key other than `ociVersion` leaves
the `version` slot untouched, and likewise for `mounts`. -/
theorem Spec.step_slots (st st' : SpecPartial) (kv : String × Json)
    (h : Spec.step st kv = .ok st') :
    (kv.1 ≠ "ociVersion" → st'.version = st.version) ∧
    (kv.1 ≠ "mounts" → st'.mounts = st.mounts) := by
  unfold Spec.step at h
  repeat' split at h
  all_goals simp_all [dup]
  all_goals (cases h; simp_all)

/-- If a key never occurs in the object entries, the corresponding slot
of the `Spec` partial state survives the whole visitor loop. -/
theorem Spec.loop_slots (fs : JFields) (st st' : SpecPartial)
    (h : Spec.loop st fs = .ok st') :
    ("ociVersion" ∉ fs.map Prod.fst → st'.version = st.version) ∧
    ("mounts" ∉ fs.map Prod.fst → st'.mounts = st.mounts) := by
  induction fs generalizing st with
  | nil =>
    cases h
    exact ⟨fun _ => rfl, fun _ => rfl⟩
  | cons kv rest ih =>
    simp only [Spec.loop] at h
    cases hstep : Spec.step st kv with
    | error e => rw [hstep] at h; cases h
    | ok st1 =>
      rw [hstep] at h
      have hs := Spec.step_slots st st1 kv hstep
      have hr := ih st1 h
      constructor
      · intro hk
        simp only [List.map_cons, List.mem_cons, not_or] at hk
        exact (hr.1 hk.2).trans (hs.1 (fun e => hk.1 e.symm))
      · intro hk
        simp only [List.map_cons, List.mem_cons, not_or] at hk
        exact (hr.2 hk.2).trans (hs.2 (fun e => hk.1 e.symm))

/-- The concrete scenario object of spec §8 item 6. -/
def scenarioJson : Json :=
  Json.obj
    [("ociVersion", Json.str "1.0.2"),
     ("process", Json.obj
       [("user", Json.obj [("uid", Json.num 0), ("gid", Json.num 0)]),
        ("cwd", Json.str "/")]),
     ("root", Json.obj [("path", Json.str "/rootfs")])]

/-! ## Claims -/

/-- Claim C1: the spec asserts `decode(encode(v)) == v` for every value
constructible via the builder, with omitted empty/absent fields decoding
back to their defaults.  The code violates this: `Spec.mounts` and
`Process.args` carry `skip_serializing_if = "Vec::is_empty"` but no
`#[serde(default)]`, so encoding the all-defaults record (the untouched
builder's output) omits them and decoding the result fails with a
missing-field error instead of reproducing the record. -/
theorem c1_roundtrip_fails_on_defaults :
    decodeSpec (encodeSpec {}) = .error "missing field mounts" ∧
    decodeProcess (encodeProcess {}) = .error "missing field args" :=
  ⟨rfl, rfl⟩

/-- Claim C2: the spec asserts that decoding an object lacking any
optional, sequence-valued or mapping-valued field succeeds with the
default.  The code violates this for the sequence fields without
`#[serde(default)]`: a `Process` object lacking `args` and a
`LinuxSeccomp` object lacking `architectures` are rejected. -/
theorem c2_missing_sequence_field_rejected :
    decodeProcess (Json.obj
      [("user", Json.obj [("uid", Json.num 0), ("gid", Json.num 0)]),
       ("cwd", Json.str "/")]) = .error "missing field args" ∧
    decodeLinuxSeccomp (Json.obj
      [("defaultAction", Json.str "SCMP_ACT_ALLOW")]) =
      .error "missing field architectures" :=
  ⟨rfl, rfl⟩

/-- Claim C3: the spec's concrete scenario says this object decodes
successfully.  It does not: the nested `process` object lacks `args`
(required, since `Process.args` has no `#[serde(default)]`), so the
whole decode fails. -/
theorem c3_scenario_decode_fails :
    decodeSpec scenarioJson = .error "missing field args" := rfl

/-- Claim C4, counterexample: `LinuxSyscall.names` holds the empty
sequence in the default record, yet encoding emits it (the field has no
`skip_serializing_if`), so "a field is omitted exactly when it is an
empty sequence" and "an all-defaults record emits only required
non-collection fields" both fail at `LinuxSyscall`. -/
theorem c4_counterexample :
    ({} : LinuxSyscall).names = [] ∧
    encodeLinuxSyscall {} =
      Json.obj [("names", Json.arr []), ("action", Json.str "")] :=
  ⟨rfl, rfl⟩

/-- Claim C4, amended: for every `Mount`, a key appears in the encoding
exactly per the omission rule (absent option / empty sequence omitted),
and encoding the default `Mount` yields exactly
`{"destination": ""}`; for `LinuxSyscall`, the same holds for `args`,
but `names` and `action` are always emitted — `names` even when it is
an empty sequence. -/
theorem c4_amended_omission :
    (∀ m : Mount, (encodeMount m).keys =
      ["destination"]
        ++ (if m.mount_type.isSome then ["type"] else [])
        ++ (if m.source.isSome then ["source"] else [])
        ++ (if m.options.isEmpty then [] else ["options"])) ∧
    (∀ s : LinuxSyscall, (encodeLinuxSyscall s).keys =
      ["names", "action"] ++ (if s.args.isEmpty then [] else ["args"])) ∧
    encodeMount {} = Json.obj [("destination", Json.str "")] := by
  refine ⟨fun m => ?_, fun s => ?_, rfl⟩
  · rcases m with ⟨d, mt, src, opts⟩
    cases mt <;> cases src <;> cases opts <;> rfl
  · rcases s with ⟨names, action, args⟩
    cases args <;> rfl

/-- Claim C5: decoding a `Spec` object with an extra, unrecognised key
inserted anywhere yields exactly the result of decoding the object with
that key removed; unknown fields are ignored, never rejected. -/
theorem c5_unknown_field_tolerated (l₁ l₂ : JFields) (k : String)
    (v : Json) (h : k ∉ specWireKeys) :
    decodeSpec (Json.obj (l₁ ++ (k, v) :: l₂)) =
      decodeSpec (Json.obj (l₁ ++ l₂)) := by
  simp only [decodeSpec, Json.getObj]
  rw [Spec.loop_skip_unknown k v h l₁ l₂]

/-- Witness for C5 at a concrete object and unknown key. -/
theorem c5_witness :
    "comment" ∉ specWireKeys ∧
    decodeSpec (Json.obj ([("ociVersion", Json.str "1.0.2")]
        ++ ("comment", Json.str "extra") :: [("mounts", Json.arr [])])) =
      decodeSpec (Json.obj ([("ociVersion", Json.str "1.0.2")]
        ++ [("mounts", Json.arr [])])) :=
  ⟨by decide,
   c5_unknown_field_tolerated [("ociVersion", Json.str "1.0.2")]
     [("mounts", Json.arr [])] "comment" (Json.str "extra") (by decide)⟩

/-- Claim C6: for any two distinct fields of `Spec` (and of `Mount`),
setting them in either order on the default builder accumulator and
finalizing yields the same record — each setter overwrites only its own
slot. -/
theorem c6_builder_setters_commute :
    (∀ (A B : SpecField) (a : SpecField.ty A) (b : SpecField.ty B),
      A ≠ B →
      (SpecBuilder.set (SpecBuilder.set {} A a) B b).build =
        (SpecBuilder.set (SpecBuilder.set {} B b) A a).build) ∧
    (∀ (A B : MountField) (a : MountField.ty A) (b : MountField.ty B),
      A ≠ B →
      (MountBuilder.set (MountBuilder.set {} A a) B b).build =
        (MountBuilder.set (MountBuilder.set {} B b) A a).build) := by
  constructor
  · intro A B a b h
    cases A <;> cases B <;> first | exact absurd rfl h | rfl
  · intro A B a b h
    cases A <;> cases B <;> first | exact absurd rfl h | rfl

/-- Witness for C6 at concrete fields and values. -/
theorem c6_witness :
    SpecField.version ≠ SpecField.hostname ∧
    (SpecBuilder.set (SpecBuilder.set {} SpecField.version "1.0.2")
        SpecField.hostname (some "host")).build =
      (SpecBuilder.set (SpecBuilder.set {} SpecField.hostname (some "host"))
        SpecField.version "1.0.2").build ∧
    MountField.destination ≠ MountField.source ∧
    (MountBuilder.set (MountBuilder.set {} MountField.destination "/mnt")
        MountField.source (some "/dev/sda")).build =
      (MountBuilder.set (MountBuilder.set {} MountField.source
        (some "/dev/sda")) MountField.destination "/mnt").build :=
  ⟨by decide, c6_builder_setters_commute.1 _ _ _ _ (by decide),
   by decide, c6_builder_setters_commute.2 _ _ _ _ (by decide)⟩

/-- Claim C7: builder finalization succeeds on every accumulator state
(shown for the `Spec` and `LinuxResources` builders the claim cites),
and the untouched accumulator builds the all-defaults record. -/
theorem c7_build_always_ok :
    (∀ b : SpecBuilder, ∃ s, b.build = .ok s) ∧
    SpecBuilder.build {} = .ok ({} : Spec) ∧
    (∀ b : LinuxResourcesBuilder, ∃ r, b.build = .ok r) ∧
    LinuxResourcesBuilder.build {} = .ok ({} : LinuxResources) :=
  ⟨fun _ => ⟨_, rfl⟩, rfl, fun _ => ⟨_, rfl⟩, rfl⟩

/-- Claim C8: a present field whose value has the wrong JSON type makes
the whole decode fail — a string where `User.uid` expects a number, and
a boolean where `Root.path` expects a string, each fail regardless of
the remaining entries, producing no record. -/
theorem c8_type_mismatch_fails :
    (∀ (s : String) (rest : JFields),
      decodeUser (Json.obj (("uid", Json.str s) :: rest)) =
        .error "invalid type: expected unsigned integer") ∧
    (∀ (b : Bool) (rest : JFields),
      decodeRoot (Json.obj (("path", Json.bool b) :: rest)) =
        .error "invalid type: expected string") :=
  ⟨fun _ _ => rfl, fun _ _ => rfl⟩

/-- Claim C9, counterexample: `ociVersion` is not the sole mandatory
top-level key — this object has `ociVersion` yet fails to decode,
because `mounts` (lacking `#[serde(default)]`) is also mandatory. -/
theorem c9_counterexample :
    decodeSpec (Json.obj [("ociVersion", Json.str "1.0.2")]) =
      .error "missing field mounts" := rfl

/-- Claim C9, amended: decoding a `Spec` fails whenever `ociVersion` is
absent, fails whenever `mounts` is absent, and succeeds on an object
carrying just those two keys — so `ociVersion` and `mounts` are exactly
the mandatory top-level keys. -/
theorem c9_amended_mandatory_fields :
    (∀ fs : JFields, "ociVersion" ∉ fs.map Prod.fst →
      ∃ e, decodeSpec (Json.obj fs) = .error e) ∧
    (∀ fs : JFields, "mounts" ∉ fs.map Prod.fst →
      ∃ e, decodeSpec (Json.obj fs) = .error e) ∧
    decodeSpec (Json.obj
        [("ociVersion", Json.str "1.0.2"), ("mounts", Json.arr [])]) =
      .ok { version := "1.0.2", mounts := [] } := by
  refine ⟨fun fs h => ?_, fun fs h => ?_, rfl⟩
  · cases hloop : Spec.loop {} fs with
    | error e => exact ⟨e, by simp [decodeSpec, Json.getObj, hloop]⟩
    | ok st =>
      have hv : st.version = none := (Spec.loop_slots fs {} st hloop).1 h
      exact ⟨"missing field ociVersion",
        by simp [decodeSpec, Json.getObj, hloop, hv, req, missing]⟩
  · cases hloop : Spec.loop {} fs with
    | error e => exact ⟨e, by simp [decodeSpec, Json.getObj, hloop]⟩
    | ok st =>
      have hm : st.mounts = none := (Spec.loop_slots fs {} st hloop).2 h
      cases hv : st.version with
      | none =>
        exact ⟨"missing field ociVersion",
          by simp [decodeSpec, Json.getObj, hloop, hv, req, missing]⟩
      | some ver =>
        exact ⟨"missing field mounts",
          by simp [decodeSpec, Json.getObj, hloop, hv, hm, req, missing]⟩

/-- Witness for C9 at concrete objects missing each mandatory key. -/
theorem c9_witness :
    "ociVersion" ∉ ([("hostname", Json.str "h")] : JFields).map Prod.fst ∧
    (∃ e, decodeSpec (Json.obj [("hostname", Json.str "h")]) = .error e) ∧
    "mounts" ∉ ([("ociVersion", Json.str "0.1")] : JFields).map Prod.fst ∧
    (∃ e, decodeSpec (Json.obj [("ociVersion", Json.str "0.1")]) =
      .error e) :=
  ⟨by decide, c9_amended_mandatory_fields.1 _ (by decide),
   by decide, c9_amended_mandatory_fields.2.1 _ (by decide)⟩

/-- Claim C10: in `Hooks`, `poststart`/`poststop` hold plain strings and
`prestart` (like the other structured lists) holds `Hook` records, so an
object in a `poststart` or `poststop` array is a decode error, a bare
string in a `prestart` array is a decode error, and the well-typed
variants decode. -/
theorem c10_hook_list_element_types :
    decodeHooks (Json.obj [("poststart", Json.arr [Json.obj []])]) =
      .error "invalid type: expected string" ∧
    decodeHooks (Json.obj [("poststop", Json.arr [Json.obj []])]) =
      .error "invalid type: expected string" ∧
    decodeHooks (Json.obj [("prestart", Json.arr [Json.str "/bin/sh"])]) =
      .error "invalid type: expected object" ∧
    decodeHooks (Json.obj
      [("prestart", Json.arr [Json.obj
         [("path", Json.str "/bin/sh"), ("args", Json.arr []),
          ("env", Json.arr [])]]),
       ("poststart", Json.arr [Json.str "/bin/hook"])]) =
      .ok { prestart := [{ path := "/bin/sh" }],
            poststart := ["/bin/hook"] } :=
  ⟨rfl, rfl, rfl, rfl⟩
